import Mathlib

/-! Shallow embedding of sispm.py, a controller for Gembird SiS-PM USB power
outlets.  The USB host layer is modelled by an explicit oracle state
(`BusState`): each control transfer consumes the next entry of an outcome
oracle and is appended to an event log, so transfer counts, retry delays and
resource disposal are all observable.  Python values reaching the public
operations are modelled by `PyVal` together with Python's `==` semantics. -/

namespace Sispm

set_option maxRecDepth 10000

/-- A USB transport error (pyusb `USBError`), identified by a code. -/
structure UsbError where
  code : Nat
deriving DecidableEq

/-- Python values that can be passed as the `num` argument of the public
outlet operations: ints, bools (int subtypes in Python), floats (modelled as
rationals, which is exact for the comparisons performed here) and strings. -/
inductive PyVal
  | int (n : Int)
  | bool (b : Bool)
  | float (q : Rat)
  | str (s : String)
deriving DecidableEq

/-- Python-level exceptions raised on the code paths of sispm.py. -/
inductive PyError
  | usb (e : UsbError)      -- usb.core.USBError from a control transfer
  | outlet (v : PyVal)      -- OutletException(num)
  | keyError                -- DEVICE_TYPES[...] with an unknown product id
  | typeError               -- e.g. bytearray item assignment with a float
  | valueError              -- bytearray item assignment out of 0..255
  | indexError              -- indexing a too-short reply buffer
deriving DecidableEq

/-- Python `==` on the values of `PyVal`: numeric kinds compare by numeric
value (`True == 1`, `1.0 == 1`), strings compare only with strings. -/
def pyEq : PyVal → PyVal → Bool
  | .int a, .int b => a == b
  | .int a, .bool b => a == (if b then (1 : Int) else 0)
  | .int a, .float b => ((a : Rat) == b)
  | .bool a, .int b => (if a then (1 : Int) else 0) == b
  | .bool a, .bool b => a == b
  | .bool a, .float b => ((if a then (1 : Rat) else 0) == b)
  | .float a, .int b => (a == (b : Rat))
  | .float a, .bool b => (a == (if b then (1 : Rat) else 0))
  | .float a, .float b => a == b
  | .str a, .str b => a == b
  | .str _, _ => false
  | _, .str _ => false

/-- Python `num * 3` on a `PyVal` (bool is an int subtype; `str * 3` repeats). -/
def pyMul3 : PyVal → PyVal
  | .int n => .int (n * 3)
  | .bool b => .int ((if b then (1 : Int) else 0) * 3)
  | .float q => .float (q * 3)
  | .str s => .str (s ++ s ++ s)

/-- Python `bytearray` item assignment `b[idx] = v`: only ints in `0..255`
(and bools) are accepted; a float or string raises `TypeError`, an
out-of-range int raises `ValueError`. -/
def bytearray_set (b : List Nat) (idx : Nat) : PyVal → Except PyError (List Nat)
  | .int n => if 0 ≤ n ∧ n < 256 then .ok (b.set idx n.toNat) else .error .valueError
  | .bool v => .ok (b.set idx (if v then 1 else 0))
  | .float _ => .error .typeError
  | .str _ => .error .typeError

/-- Python `(0x03 << 8) | v` (the `value` field of the control transfers):
bitwise or is defined on ints (and bools), raises `TypeError` otherwise. -/
def pyOr768 : PyVal → Except PyError Int
  | .int n => .ok (Int.lor 768 n)       -- 0x03 <<< 8 = 768
  | .bool v => .ok (Int.lor 768 (if v then 1 else 0))
  | .float _ => .error .typeError
  | .str _ => .error .typeError

/-- Observable bus events: an attempted control transfer (with its full
parameter tuple), the 50ms retry delay, and a `dispose_resources` call. -/
inductive Event
  | transfer (reqType req : Nat) (value : Int) (index : Nat)
      (buf : List Nat) (timeout : Nat)
  | sleep50
  | dispose
deriving DecidableEq

/-- The USB world as seen by one device handle: an oracle giving the outcome
of the j-th attempted control transfer, a count of attempts made so far, an
oracle for `dispose_resources` failures, a dispose call count, and the event
log. The oracle functions themselves never change during execution. -/
@[ext]
structure BusState where
  transferOutcome : Nat → Except UsbError (List Nat)
  transferCount : Nat
  disposeOutcome : Nat → Option UsbError
  disposeCount : Nat
  log : List Event

/-- One attempted `device.ctrl_transfer(...)`: logs the attempt and yields
the oracle's outcome for it (reply buffer, or a transport error). -/
def ctrl_transfer (reqType req : Nat) (value : Int) (index : Nat)
    (buf : List Nat) (timeout : Nat) (s : BusState) :
    BusState × Except UsbError (List Nat) :=
  ({ s with
      transferCount := s.transferCount + 1,
      log := s.log ++ [Event.transfer reqType req value index buf timeout] },
   s.transferOutcome s.transferCount)

/-- One `dispose_resources(device)` call: logs it and yields `some e` when
this call raises a `USBError`. -/
def dispose_resources (s : BusState) : BusState × Option UsbError :=
  ({ s with
      disposeCount := s.disposeCount + 1,
      log := s.log ++ [Event.dispose] },
   s.disposeOutcome s.disposeCount)

def VENDOR : Nat := 0x04B4  -- Gembird

def MSISPM_OLD : Nat := 0xFD10
def SISPM : Nat := 0xFD11
def MSISPM_FLASH : Nat := 0xFD12
def MSISPM_FLASH_NEW : Nat := 0xFD13

/-- `DEVICE_TYPES`: product id → (outlet tuple, device type label). -/
def DEVICE_TYPES : List (Nat × (List Nat × String)) :=
  [(MSISPM_OLD, ([1], "1-socket mSiS-PM")),
   (SISPM, ([1, 2, 3, 4], "4-socket SiS-PM")),
   (MSISPM_FLASH, ([1], "1-socket mSiS-PM")),
   (MSISPM_FLASH_NEW, ([1, 2, 3, 4], "4-socket SiS-PM"))]

def TRIES : Nat := 5

/-- The body of `_usb_command`'s loop `for i in range(TRIES-1, -1, -1)`:
attempt the transfer; on success return its result; on a `USBError`, raise
it when `i == 0`, otherwise `sleep(.05)` and continue with `i-1`. -/
def usb_command_loop (reqType req : Nat) (value : Int) (index : Nat)
    (buf : List Nat) (timeout : Nat) :
    Nat → BusState → BusState × Except UsbError (List Nat)
  | 0, s => ctrl_transfer reqType req value index buf timeout s
  | i + 1, s =>
    match ctrl_transfer reqType req value index buf timeout s with
    | (s1, .ok r) => (s1, .ok r)
    | (s1, .error _) =>
      usb_command_loop reqType req value index buf timeout i
        { s1 with log := s1.log ++ [Event.sleep50] }

/-- `OutletDevice._usb_command`: the resilient transfer executor,
`TRIES = 5` attempts in total. -/
def usb_command (reqType req : Nat) (value : Int) (index : Nat)
    (buf : List Nat) (timeout : Nat) (s : BusState) :
    BusState × Except UsbError (List Nat) :=
  usb_command_loop reqType req value index buf timeout (TRIES - 1) s

/-- The identity/session data of one `OutletDevice` (the wrapped pyusb
device's descriptor fields plus the `autodispose` flag, `True` on init). -/
structure OutletDevice where
  idVendor : Nat
  idProduct : Nat
  manufacturer : String
  product : String
  bus : Nat
  address : Nat
  autodispose : Bool

/-- The `@autodispose` decorator: run the body; regardless of outcome, if
`self.autodispose` is set, call `dispose_resources(self.device)`, swallowing
the `USBError` it may raise; the body's result (or exception) is returned
unchanged. -/
def autodispose_wrap {α : Type} (d : OutletDevice)
    (body : BusState → BusState × Except PyError α) (s : BusState) :
    BusState × Except PyError α :=
  let r := body s
  if d.autodispose then ((dispose_resources r.1).1, r.2) else r

/-- `OutletDevice._status(num)`: build a 6-byte buffer with `bytes[0] = num*3`,
issue a read transfer (`0x21 | 0x80`, `0x01`, `(0x03<<8)|(num*3)`, 0, 500ms),
return `bool(reply[1])`. -/
def _status (num : PyVal) (s : BusState) : BusState × Except PyError Bool :=
  match bytearray_set (List.replicate 6 0) 0 (pyMul3 num) with
  | .error e => (s, .error e)
  | .ok bytes =>
    match pyOr768 (pyMul3 num) with
    | .error e => (s, .error e)
    | .ok v =>
      match usb_command (0x21 ||| 0x80) 0x01 v 0 bytes 500 s with
      | (s1, .error e) => (s1, .error (.usb e))
      | (s1, .ok reply) =>
        match reply.get? 1 with
        | none => (s1, .error .indexError)
        | some x => (s1, .ok (x != 0))

/-- `OutletDevice._on(num)`: if already on return `True`; otherwise write
(`0x21`, `0x09`, buffer `[num*3, 0x03, 0, 0, 0, 0]`) and return a fresh
`_status(num)`. -/
def _on (num : PyVal) (s : BusState) : BusState × Except PyError Bool :=
  match _status num s with
  | (s1, .error e) => (s1, .error e)
  | (s1, .ok true) => (s1, .ok true)
  | (s1, .ok false) =>
    match bytearray_set (List.replicate 6 0) 0 (pyMul3 num) with
    | .error e => (s1, .error e)
    | .ok bytes0 =>
      match bytearray_set bytes0 1 (.int 0x03) with
      | .error e => (s1, .error e)
      | .ok bytes =>
        match pyOr768 (pyMul3 num) with
        | .error e => (s1, .error e)
        | .ok v =>
          match usb_command 0x21 0x09 v 0 bytes 500 s1 with
          | (s2, .error e) => (s2, .error (.usb e))
          | (s2, .ok _) => _status num s2

/-- Python `not` lifted over an exceptional boolean: `return not X` where
evaluating `X` may itself raise. -/
def mapNotExc : Except PyError Bool → Except PyError Bool
  | .ok b => .ok (!b)
  | .error e => .error e

/-- `OutletDevice._off(num)`: if already off return `True`; otherwise write
(`0x21`, `0x09`, buffer `[num*3, 0, 0, 0, 0, 0]`) and return the negation of
a fresh `_status(num)`. -/
def _off (num : PyVal) (s : BusState) : BusState × Except PyError Bool :=
  match _status num s with
  | (s1, .error e) => (s1, .error e)
  | (s1, .ok false) => (s1, .ok true)
  | (s1, .ok true) =>
    match bytearray_set (List.replicate 6 0) 0 (pyMul3 num) with
    | .error e => (s1, .error e)
    | .ok bytes =>
      match pyOr768 (pyMul3 num) with
      | .error e => (s1, .error e)
      | .ok v =>
        match usb_command 0x21 0x09 v 0 bytes 500 s1 with
        | (s2, .error e) => (s2, .error (.usb e))
        | (s2, .ok _) =>
          ((_status num s2).1, mapNotExc (_status num s2).2)

/-- The toggle expression `self._off(num) if self._status(num) else
self._on(num)` used by `OutletDevice.toggle` for one outlet. -/
def toggle_one (num : PyVal) (s : BusState) : BusState × Except PyError Bool :=
  match _status num s with
  | (s1, .error e) => (s1, .error e)
  | (s1, .ok b) => if b then _off num s1 else _on num s1

/-- `OutletDevice.outlets`: `DEVICE_TYPES[self.device.idProduct][0]`; raises
`KeyError` for a product id absent from the table. -/
def OutletDevice.outlets (d : OutletDevice) : Except PyError (List Nat) :=
  match DEVICE_TYPES.lookup d.idProduct with
  | none => .error .keyError
  | some p => .ok p.1

/-- Result of a public outlet operation: a scalar for a single outlet, a
dict (ordered as built) for `'all'`. -/
inductive OpResult
  | single (b : Bool)
  | all (entries : List (Nat × Bool))
deriving DecidableEq

/-- The dict comprehension `dict((i, f(i)) for i in self.outlets)`: apply `f`
to each outlet in tuple order, threading the bus state; an exception from one
sub-call propagates out. -/
def mapOutlets (f : PyVal → BusState → BusState × Except PyError Bool) :
    List Nat → BusState → BusState × Except PyError (List (Nat × Bool))
  | [], s => (s, .ok [])
  | i :: rest, s =>
    match f (.int i) s with
    | (s1, .error e) => (s1, .error e)
    | (s1, .ok b) =>
      match mapOutlets f rest s1 with
      | (s2, .error e) => (s2, .error e)
      | (s2, .ok m) => (s2, .ok ((i, b) :: m))

/-- The shared body shape of `status` / `on` / `off` / `toggle`: `if num in
self.outlets: return f(num)`, `if num == 'all': return dict((i, f(i)) for i in
self.outlets)`, `raise OutletException(num)` — with `f` the respective
per-outlet operation. -/
def dispatch (f : PyVal → BusState → BusState × Except PyError Bool)
    (d : OutletDevice) (num : PyVal) (s : BusState) :
    BusState × Except PyError OpResult :=
  match d.outlets with
  | .error e => (s, .error e)
  | .ok os =>
    if os.any (fun o => pyEq num (.int o)) then
      match f num s with
      | (s1, .error e) => (s1, .error e)
      | (s1, .ok b) => (s1, .ok (.single b))
    else if pyEq num (.str "all") then
      match mapOutlets f os s with
      | (s1, .error e) => (s1, .error e)
      | (s1, .ok m) => (s1, .ok (.all m))
    else (s, .error (.outlet num))

/-- `OutletDevice.status(num)` (decorated with `@autodispose`). -/
def OutletDevice.status (d : OutletDevice) (num : PyVal) (s : BusState) :
    BusState × Except PyError OpResult :=
  autodispose_wrap d (dispatch _status d num) s

/-- `OutletDevice.on(num)` (decorated with `@autodispose`). -/
def OutletDevice.on (d : OutletDevice) (num : PyVal) (s : BusState) :
    BusState × Except PyError OpResult :=
  autodispose_wrap d (dispatch _on d num) s

/-- `OutletDevice.off(num)` (decorated with `@autodispose`). -/
def OutletDevice.off (d : OutletDevice) (num : PyVal) (s : BusState) :
    BusState × Except PyError OpResult :=
  autodispose_wrap d (dispatch _off d num) s

/-- `OutletDevice.toggle(num)` (decorated with `@autodispose`). -/
def OutletDevice.toggle (d : OutletDevice) (num : PyVal) (s : BusState) :
    BusState × Except PyError OpResult :=
  autodispose_wrap d (dispatch toggle_one d num) s

/-- `OutletDevice.dispose()`: `dispose_resources(self.device)`, with no
exception handling of its own. -/
def OutletDevice.dispose (s : BusState) : BusState × Option UsbError :=
  dispose_resources s

/-- The body of `OutletDevice._get_serial`: a 6-byte read with request type
`0xA1`, request `0x01`, value `(0x03 << 8) | 1`, 500ms timeout. -/
def get_serial_body (s : BusState) : BusState × Except PyError (List Nat) :=
  match usb_command 0xA1 0x01 (Int.lor 768 1) 0 (List.replicate 6 0) 500 s with
  | (s1, .error e) => (s1, .error (.usb e))
  | (s1, .ok b) => (s1, .ok b)

/-- `OutletDevice._get_serial` (decorated with `@autodispose`). -/
def _get_serial (d : OutletDevice) (s : BusState) :
    BusState × Except PyError (List Nat) :=
  autodispose_wrap d get_serial_body s

/-- Python `hex(n)[2:]` for a natural number: minimal-width lowercase hex. -/
def natHex (n : Nat) : String := String.mk (Nat.toDigits 16 n)

/-- Python `str.zfill(w)` for a digit string: left-pad with `'0'` to width `w`. -/
def zfill (w : Nat) (str : String) : String :=
  if w ≤ str.length then str
  else String.mk (List.replicate (w - str.length) '0') ++ str

/-- `':'.join(hex(i)[2:].zfill(2) for i in raw)` — the serial formatting. -/
def formatSerial (raw : List Nat) : String :=
  String.intercalate ":" (raw.map fun i => zfill 2 (natHex i))

/-- `OutletDevice.serial`: read the raw serial and format it. -/
def OutletDevice.serial (d : OutletDevice) (s : BusState) :
    BusState × Except PyError String :=
  match _get_serial d s with
  | (s1, .error e) => (s1, .error e)
  | (s1, .ok raw) => (s1, .ok (formatSerial raw))

/-- The record assembled by `OutletDevice.info`. -/
structure InfoRecord where
  manufacturer : String
  product : String
  idVendor : String
  idProduct : String
  serial : String
  devicetype : String
  outlets : List Nat
  bus : Nat
  address : Nat
deriving DecidableEq

/-- `'0x' + hex(n)[2:].zfill(4)` — the vendor/product id formatting in `info`. -/
def hex4 (n : Nat) : String := "0x" ++ zfill 4 (natHex n)

/-- `OutletDevice.info`: builds its dict entries in source order, so the
serial read (a bus transfer) happens before the `DEVICE_TYPES` lookups. -/
def OutletDevice.info (d : OutletDevice) (s : BusState) :
    BusState × Except PyError InfoRecord :=
  match OutletDevice.serial d s with
  | (s1, .error e) => (s1, .error e)
  | (s1, .ok ser) =>
    match DEVICE_TYPES.lookup d.idProduct with
    | none => (s1, .error .keyError)
    | some p =>
      (s1, .ok { manufacturer := d.manufacturer, product := d.product,
                 idVendor := hex4 d.idVendor, idProduct := hex4 d.idProduct,
                 serial := ser, devicetype := p.2, outlets := p.1,
                 bus := d.bus, address := d.address })

/-- A physical device on the bus as the enumerator sees it: its descriptor
fields plus its own USB oracle state. -/
structure RawDevice where
  idVendor : Nat
  idProduct : Nat
  manufacturer : String
  product : String
  bus : Nat
  address : Nat
  usb : BusState

/-- `OutletDevice.__init__`: wrap a raw device; `autodispose` defaults to `True`. -/
def mkOutletDevice (r : RawDevice) : OutletDevice :=
  { idVendor := r.idVendor, idProduct := r.idProduct,
    manufacturer := r.manufacturer, product := r.product,
    bus := r.bus, address := r.address, autodispose := true }

def DEFAULT_PRODUCTS : List Nat := [MSISPM_OLD, SISPM, MSISPM_FLASH, MSISPM_FLASH_NEW]

/-- `get_devices(products)`: enumerate devices with the Gembird vendor id
whose product id is in `products`, in bus order. -/
def get_devices (world : List RawDevice) (products : List Nat) : List RawDevice :=
  world.filter fun r => r.idVendor == VENDOR && products.contains r.idProduct

/-- The loop of `get_device_by_serial`: read each candidate's serial (an
exception from the read propagates) and return the first exact match. -/
def get_device_by_serial_loop (target : String) :
    List RawDevice → Except PyError (Option RawDevice)
  | [] => .ok none
  | r :: rest =>
    match (OutletDevice.serial (mkOutletDevice r) r.usb).2 with
    | .error e => .error e
    | .ok str =>
      if str = target then .ok (some r)
      else get_device_by_serial_loop target rest

/-- `get_device_by_serial(serial, products)`: scan the enumeration in order,
return the first device whose serial matches, `None` when none does. -/
def get_device_by_serial (world : List RawDevice) (target : String)
    (products : List Nat) : Except PyError (Option RawDevice) :=
  get_device_by_serial_loop target (get_devices world products)

/-! Helper definitions used by the theorem statements below. -/

/-- Whether a transfer outcome is a success. -/
def isOkB {α : Type} : Except UsbError α → Bool
  | .ok _ => true
  | .error _ => false

/-- The transfer event issued by `_status(n)` for an integer outlet `n`. -/
def readEvent (n : Nat) : Event :=
  Event.transfer (0x21 ||| 0x80) 0x01 (Int.lor 768 ((n : Int) * 3)) 0
    ((List.replicate 6 0).set 0 (n * 3)) 500

/-- The transfer event issued by the write of `_on(n)`. -/
def writeOnEvent (n : Nat) : Event :=
  Event.transfer 0x21 0x09 (Int.lor 768 ((n : Int) * 3)) 0
    (((List.replicate 6 0).set 0 (n * 3)).set 1 3) 500

/-- The transfer event issued by the write of `_off(n)`. -/
def writeOffEvent (n : Nat) : Event :=
  Event.transfer 0x21 0x09 (Int.lor 768 ((n : Int) * 3)) 0
    ((List.replicate 6 0).set 0 (n * 3)) 500

/-- The transfer event issued by `_get_serial`. -/
def serialReadEvent : Event :=
  Event.transfer 0xA1 0x01 (Int.lor 768 1) 0 (List.replicate 6 0) 500

/-- Whether an event is a write transfer (request type `0x21`, request `0x09`). -/
def isWriteEvent : Event → Bool
  | .transfer rt rq _ _ _ _ => rt == 0x21 && rq == 0x09
  | _ => false

/-- Whether an event is the 50ms inter-retry delay. -/
def isSleepEvent : Event → Bool
  | .sleep50 => true
  | _ => false

/-- Number of write transfers recorded so far. -/
def writeCount (s : BusState) : Nat := s.log.countP isWriteEvent

/-- Number of 50ms delays recorded so far. -/
def sleepCount (s : BusState) : Nat := s.log.countP isSleepEvent

/-- How the single-outlet branch of a public operation packages the
per-outlet result (exceptions pass through). -/
def singleResult : Except PyError Bool → Except PyError OpResult
  | .ok b => .ok (.single b)
  | .error e => .error e

/-- The state change performed by the `finally` clause of `@autodispose`. -/
def postDispose (d : OutletDevice) (s : BusState) : BusState :=
  if d.autodispose then (dispose_resources s).1 else s

/-- An oracle under which every attempted transfer succeeds and every reply
buffer has at least two bytes (as the hardware's 6-byte replies do). -/
def GoodOracle (s : BusState) : Prop :=
  ∀ j, ∃ r x, s.transferOutcome j = Except.ok r ∧ r.get? 1 = some x

/-- Status bit decoded from a reply: `bool(reply[1])`. -/
def decodeByte1 : Except UsbError (List Nat) → Bool
  | .ok r => (r.get? 1).getD 0 != 0
  | .error _ => false

/-- The entries `status('all')` produces when every read succeeds on its
first attempt: outlet `i` at position `idx` gets the status decoded from the
oracle's reply number `tc + idx`. -/
def expectedEntries : List Nat → Nat → BusState → List (Nat × Bool)
  | [], _, _ => []
  | i :: rest, tc, s =>
    (i, decodeByte1 (s.transferOutcome tc)) :: expectedEntries rest (tc + 1) s

/-- Spec-side rendering of a hex digit, lowercase (`'0'..'9'`, `'a'..'f'`). -/
def specHexDigit (n : Nat) : Char :=
  if n < 10 then Char.ofNat (0x30 + n) else Char.ofNat (0x57 + n)

/-- Spec-side rendering of one byte as exactly two lowercase hex digits,
zero-padded (from the spec's words for the serial representation). -/
def specByteHex (b : Nat) : String :=
  String.mk [specHexDigit (b / 16), specHexDigit (b % 16)]

/-- Whether a candidate device's read serial equals the target exactly
(used to state which device `get_device_by_serial` returns; a device whose
read fails matches nothing). -/
def serialMatches (target : String) (r : RawDevice) : Bool :=
  match (OutletDevice.serial (mkOutletDevice r) r.usb).2 with
  | .ok str => str == target
  | .error _ => false

/-! Concrete fixtures for witnesses: small bus states and devices. -/

/-- A fresh bus state driven by the given transfer oracle, with dispose
calls that never fail. -/
def mkBus (f : Nat → Except UsbError (List Nat)) : BusState :=
  { transferOutcome := f, transferCount := 0,
    disposeOutcome := fun _ => none, disposeCount := 0, log := [] }

/-- Every transfer succeeds and every outlet reads as powered on. -/
def busOnline : BusState := mkBus fun _ => .ok [0, 1, 0, 0, 0, 0]

/-- First read: off; the write succeeds; re-read: on. -/
def busC1 : BusState :=
  mkBus fun j =>
    if j = 0 then .ok [3, 0, 0, 0, 0, 0]
    else if j = 1 then .ok [0, 0, 0, 0, 0, 0]
    else .ok [3, 1, 0, 0, 0, 0]

/-- Two transport failures, then success. -/
def busFail2 : BusState :=
  mkBus fun j => if j < 2 then .error ⟨7⟩ else .ok [9, 9]

/-- Every attempt fails, with the attempt index as error code. -/
def busFailAll : BusState := mkBus fun j => .error ⟨j⟩

/-- Every transfer replies with the spec's example serial bytes. -/
def busSerial : BusState :=
  mkBus fun _ => .ok [0x1A, 0x02, 0xFF, 0x00, 0x0B, 0x9C]

/-- A 4-socket SiS-PM session with auto-dispose on. -/
def devSis : OutletDevice :=
  { idVendor := VENDOR, idProduct := SISPM, manufacturer := "Gembird",
    product := "SiS-PM", bus := 1, address := 2, autodispose := true }

/-- A session around a device whose product id is not in `DEVICE_TYPES`. -/
def devUnknown : OutletDevice := { devSis with idProduct := 0x9999 }

/-- A raw 4-socket device whose serial reads as the given bytes. -/
def rawSis (addr : Nat) (serialBytes : List Nat) : RawDevice :=
  { idVendor := VENDOR, idProduct := SISPM, manufacturer := "Gembird",
    product := "SiS-PM", bus := 1, address := addr,
    usb := mkBus fun _ => .ok serialBytes }

/-- A two-device bus for the find-by-serial witness. -/
def worldW : List RawDevice :=
  [rawSis 1 [1, 2, 3, 4, 5, 6], rawSis 2 [0x1A, 0x02, 0xFF, 0x00, 0x0B, 0x9C]]

/-- `t` differs from `s` only by attempted transfers and log entries: the
oracles and the dispose count are untouched. -/
def Preserves (s t : BusState) : Prop :=
  t.transferOutcome = s.transferOutcome ∧
  t.disposeOutcome = s.disposeOutcome ∧
  t.disposeCount = s.disposeCount

/-! Lemmas about the resilient transfer executor. -/

theorem usb_command_loop_ok (rt rq : Nat) (v : Int) (ix : Nat) (b : List Nat)
    (t : Nat) :
    ∀ (k fuel : Nat) (s : BusState) (r : List Nat), k ≤ fuel →
    (∀ j, j < k → isOkB (s.transferOutcome (s.transferCount + j)) = false) →
    s.transferOutcome (s.transferCount + k) = .ok r →
    usb_command_loop rt rq v ix b t fuel s =
      ({ s with
          transferCount := s.transferCount + (k + 1),
          log := s.log ++
            (List.replicate k [Event.transfer rt rq v ix b t, Event.sleep50]).flatten ++
            [Event.transfer rt rq v ix b t] },
       .ok r) := by
  intro k
  induction k with
  | zero =>
    intro fuel s r _ _ hok
    simp only [Nat.add_zero] at hok
    cases fuel with
    | zero =>
      simp [usb_command_loop, ctrl_transfer, hok]
    | succ f =>
      simp [usb_command_loop, ctrl_transfer, hok]
  | succ k ih =>
    intro fuel s r hk hfail hok
    cases fuel with
    | zero => omega
    | succ f =>
      have h0 : isOkB (s.transferOutcome (s.transferCount + 0)) = false :=
        hfail 0 (Nat.succ_pos k)
      simp only [Nat.add_zero] at h0
      cases he : s.transferOutcome s.transferCount with
      | ok _ => rw [he] at h0; simp [isOkB] at h0
      | error e =>
        have step :
            usb_command_loop rt rq v ix b t (f + 1) s =
            usb_command_loop rt rq v ix b t f
              { s with
                  transferCount := s.transferCount + 1,
                  log := s.log ++ [Event.transfer rt rq v ix b t] ++ [Event.sleep50] } := by
          simp [usb_command_loop, ctrl_transfer, he]
        rw [step]
        have ihuse := ih f
          { s with
              transferCount := s.transferCount + 1,
              log := s.log ++ [Event.transfer rt rq v ix b t] ++ [Event.sleep50] }
          r (by omega)
          (by
            intro j hj
            simpa [Nat.add_assoc, Nat.add_comm 1 j] using hfail (j + 1) (by omega))
          (by simpa [Nat.add_assoc, Nat.add_comm 1 k] using hok)
        rw [ihuse]
        refine Prod.ext ?_ rfl
        ext
        · rfl
        · simp; omega
        · rfl
        · rfl
        · simp [List.replicate_succ]

/-- All `fuel + 1` attempts fail: the loop makes exactly `fuel + 1` attempts
with `fuel` interleaved delays and propagates the last attempt's error. -/
theorem usb_command_loop_fail (rt rq : Nat) (v : Int) (ix : Nat) (b : List Nat)
    (t : Nat) :
    ∀ (fuel : Nat) (s : BusState) (e : UsbError),
    (∀ j, j < fuel → isOkB (s.transferOutcome (s.transferCount + j)) = false) →
    s.transferOutcome (s.transferCount + fuel) = .error e →
    usb_command_loop rt rq v ix b t fuel s =
      ({ s with
          transferCount := s.transferCount + (fuel + 1),
          log := s.log ++
            (List.replicate fuel [Event.transfer rt rq v ix b t, Event.sleep50]).flatten ++
            [Event.transfer rt rq v ix b t] },
       .error e) := by
  intro fuel
  induction fuel with
  | zero =>
    intro s e _ herr
    simp only [Nat.add_zero] at herr
    simp [usb_command_loop, ctrl_transfer, herr]
  | succ f ih =>
    intro s e hfail herr
    have h0 : isOkB (s.transferOutcome (s.transferCount + 0)) = false :=
      hfail 0 (Nat.succ_pos f)
    simp only [Nat.add_zero] at h0
    cases he : s.transferOutcome s.transferCount with
    | ok _ => rw [he] at h0; simp [isOkB] at h0
    | error e0 =>
      have step :
          usb_command_loop rt rq v ix b t (f + 1) s =
          usb_command_loop rt rq v ix b t f
            { s with
                transferCount := s.transferCount + 1,
                log := s.log ++ [Event.transfer rt rq v ix b t] ++ [Event.sleep50] } := by
        simp [usb_command_loop, ctrl_transfer, he]
      rw [step]
      have ihuse := ih
        { s with
            transferCount := s.transferCount + 1,
            log := s.log ++ [Event.transfer rt rq v ix b t] ++ [Event.sleep50] }
        e
        (by
          intro j hj
          simpa [Nat.add_assoc, Nat.add_comm 1 j] using hfail (j + 1) (by omega))
        (by simpa [Nat.add_assoc, Nat.add_comm 1 f] using herr)
      rw [ihuse]
      refine Prod.ext ?_ rfl
      ext
      · rfl
      · simp; omega
      · rfl
      · rfl
      · simp [List.replicate_succ]

theorem preserves_rfl (s : BusState) : Preserves s s := ⟨rfl, rfl, rfl⟩

theorem preserves_trans {s t u : BusState} (h1 : Preserves s t)
    (h2 : Preserves t u) : Preserves s u :=
  ⟨h2.1.trans h1.1, h2.2.1.trans h1.2.1, h2.2.2.trans h1.2.2⟩

theorem usb_command_loop_preserves (rt rq : Nat) (v : Int) (ix : Nat)
    (b : List Nat) (t : Nat) :
    ∀ (fuel : Nat) (s : BusState),
    Preserves s (usb_command_loop rt rq v ix b t fuel s).1 := by
  intro fuel
  induction fuel with
  | zero =>
    intro s
    simp [usb_command_loop, ctrl_transfer, Preserves]
  | succ f ih =>
    intro s
    simp only [usb_command_loop, ctrl_transfer]
    cases he : s.transferOutcome s.transferCount with
    | ok r => simp [he, Preserves]
    | error e =>
      simp only [he]
      exact preserves_trans (by simp [Preserves]) (ih _)

theorem usb_command_preserves (rt rq : Nat) (v : Int) (ix : Nat)
    (b : List Nat) (t : Nat) (s : BusState) :
    Preserves s (usb_command rt rq v ix b t s).1 :=
  usb_command_loop_preserves rt rq v ix b t (TRIES - 1) s

/-- The executor's log grows only by its own transfer attempts and delays. -/
theorem usb_command_loop_log (rt rq : Nat) (v : Int) (ix : Nat)
    (b : List Nat) (t : Nat) :
    ∀ (fuel : Nat) (s : BusState), ∃ ext,
    (usb_command_loop rt rq v ix b t fuel s).1.log = s.log ++ ext ∧
    ∀ e ∈ ext, e = Event.transfer rt rq v ix b t ∨ e = Event.sleep50 := by
  intro fuel
  induction fuel with
  | zero =>
    intro s
    exact ⟨[Event.transfer rt rq v ix b t], by simp [usb_command_loop, ctrl_transfer]⟩
  | succ f ih =>
    intro s
    simp only [usb_command_loop, ctrl_transfer]
    cases he : s.transferOutcome s.transferCount with
    | ok r =>
      exact ⟨[Event.transfer rt rq v ix b t], by simp [he]⟩
    | error e =>
      simp only [he]
      obtain ⟨ext, hlog, hmem⟩ := ih
        { s with
            transferCount := s.transferCount + 1,
            log := (s.log ++ [Event.transfer rt rq v ix b t]) ++ [Event.sleep50] }
      refine ⟨[Event.transfer rt rq v ix b t, Event.sleep50] ++ ext, ?_, ?_⟩
      · simpa [List.append_assoc] using hlog
      · intro ev hev
        rcases List.mem_append.1 hev with h | h
        · simp only [List.mem_cons, List.not_mem_nil, or_false] at h
          rcases h with h | h
          · exact Or.inl h
          · exact Or.inr h
        · exact hmem ev h

/-- A successful first attempt: the executor returns it at once, with one
logged transfer and no delay. -/
theorem usb_command_first (rt rq : Nat) (v : Int) (ix : Nat) (b : List Nat)
    (t : Nat) (s : BusState) (r : List Nat)
    (hr : s.transferOutcome s.transferCount = .ok r) :
    usb_command rt rq v ix b t s =
      ({ s with
          transferCount := s.transferCount + 1,
          log := s.log ++ [Event.transfer rt rq v ix b t] }, .ok r) := by
  have h := usb_command_loop_ok rt rq v ix b t 0 (TRIES - 1) s r
    (by simp) (by intro j hj; omega) (by simpa using hr)
  simpa [usb_command] using h

/-- C2: the resilient executor makes at most `TRIES = 5` attempts: if the
first `k` attempts fail and attempt `k` (0-based, `k < 5`) succeeds, it
returns that attempt's result after exactly `k` inter-attempt delays and no
further attempts; if all five attempts fail, the last transport error
propagates after exactly five attempts with four interleaved delays and no
trailing delay. -/
theorem c2_resilient_executor (rt rq : Nat) (v : Int) (ix : Nat)
    (b : List Nat) (t : Nat) (s : BusState) (k : Nat) (hk : k < TRIES)
    (hfail : ∀ j, j < k → isOkB (s.transferOutcome (s.transferCount + j)) = false) :
    (∀ r, s.transferOutcome (s.transferCount + k) = .ok r →
      usb_command rt rq v ix b t s =
        ({ s with
            transferCount := s.transferCount + (k + 1),
            log := s.log ++
              (List.replicate k [Event.transfer rt rq v ix b t, Event.sleep50]).flatten ++
              [Event.transfer rt rq v ix b t] },
         .ok r) ∧
      (usb_command rt rq v ix b t s).1.transferCount = s.transferCount + (k + 1) ∧
      sleepCount (usb_command rt rq v ix b t s).1 = sleepCount s + k) ∧
    (∀ e, k = TRIES - 1 → s.transferOutcome (s.transferCount + k) = .error e →
      usb_command rt rq v ix b t s =
        ({ s with
            transferCount := s.transferCount + TRIES,
            log := s.log ++
              (List.replicate (TRIES - 1)
                [Event.transfer rt rq v ix b t, Event.sleep50]).flatten ++
              [Event.transfer rt rq v ix b t] },
         .error e) ∧
      (usb_command rt rq v ix b t s).1.transferCount = s.transferCount + TRIES ∧
      sleepCount (usb_command rt rq v ix b t s).1 = sleepCount s + (TRIES - 1)) := by
  constructor
  · intro r hok
    have h := usb_command_loop_ok rt rq v ix b t k (TRIES - 1) s r
      (by simp [TRIES] at hk ⊢; omega) hfail hok
    refine ⟨h, ?_, ?_⟩
    · rw [usb_command, h]
    · rw [usb_command, h]
      simp [sleepCount, isSleepEvent, List.countP_append, List.countP_flatten]
  · intro e hlast herr
    subst hlast
    have h := usb_command_loop_fail rt rq v ix b t (TRIES - 1) s e hfail herr
    refine ⟨by simpa [TRIES] using h, ?_, ?_⟩
    · rw [usb_command, h]; simp [TRIES]
    · rw [usb_command, h]
      simp [sleepCount, isSleepEvent, List.countP_append, List.countP_flatten, TRIES,
        List.replicate_succ, List.countP_cons]

/-- Witness for C2: two failures then a success — the executor returns the
third attempt's result with exactly two interleaved delays. -/
theorem c2_witness :
    usb_command 0xA1 0x01 769 0 (List.replicate 6 0) 500 busFail2 =
      ({ busFail2 with
          transferCount := busFail2.transferCount + (2 + 1),
          log := busFail2.log ++
            (List.replicate 2
              [Event.transfer 0xA1 0x01 769 0 (List.replicate 6 0) 500,
               Event.sleep50]).flatten ++
            [Event.transfer 0xA1 0x01 769 0 (List.replicate 6 0) 500] },
       .ok [9, 9]) ∧
    sleepCount (usb_command 0xA1 0x01 769 0 (List.replicate 6 0) 500
      busFail2).1 = sleepCount busFail2 + 2 := by
  have h := (c2_resilient_executor 0xA1 0x01 769 0 (List.replicate 6 0) 500
    busFail2 2 (by decide) (by decide)).1 [9, 9] rfl
  exact ⟨h.1, h.2.2⟩

/-! Lemmas about `_status`, `_on`, `_off`. -/

theorem usb_command_no_write (rt rq : Nat) (v : Int) (ix : Nat) (b : List Nat)
    (t : Nat) (s : BusState)
    (h : isWriteEvent (Event.transfer rt rq v ix b t) = false) :
    writeCount (usb_command rt rq v ix b t s).1 = writeCount s := by
  obtain ⟨ext, hlog, hmem⟩ := usb_command_loop_log rt rq v ix b t (TRIES - 1) s
  unfold writeCount
  rw [show (usb_command rt rq v ix b t s).1.log = s.log ++ ext from hlog,
    List.countP_append]
  have hz : ext.countP isWriteEvent = 0 := by
    rw [List.countP_eq_zero]
    intro e he
    rcases hmem e he with h1 | h1
    · rw [h1, h]; exact Bool.false_ne_true
    · rw [h1]; simp [isWriteEvent]
  omega

theorem status_shape (num : PyVal) (s : BusState) :
    Preserves s (_status num s).1 ∧
    writeCount (_status num s).1 = writeCount s := by
  unfold _status
  split
  · exact ⟨preserves_rfl s, rfl⟩
  next bytes hb =>
    split
    · exact ⟨preserves_rfl s, rfl⟩
    next v hv =>
      split
      next s1 e hu =>
        constructor
        · have hp := usb_command_preserves (0x21 ||| 0x80) 0x01 v 0 bytes 500 s
          rw [hu] at hp; exact hp
        · have hw := usb_command_no_write (0x21 ||| 0x80) 0x01 v 0 bytes 500 s (by rfl)
          rw [hu] at hw; exact hw
      next s1 reply hu =>
        have hp := usb_command_preserves (0x21 ||| 0x80) 0x01 v 0 bytes 500 s
        rw [hu] at hp
        have hw := usb_command_no_write (0x21 ||| 0x80) 0x01 v 0 bytes 500 s (by rfl)
        rw [hu] at hw
        split
        · exact ⟨hp, hw⟩
        · exact ⟨hp, hw⟩

/-- `_status(n)` for a valid integer outlet, when its read succeeds on the
first attempt: one logged read transfer, result decoded from byte 1. -/
theorem status_int_first (n : Nat) (hn : n * 3 < 256) (s : BusState)
    (r : List Nat) (x : Nat)
    (hr : s.transferOutcome s.transferCount = .ok r)
    (hx : r.get? 1 = some x) :
    _status (.int (n : Int)) s =
      ({ s with
          transferCount := s.transferCount + 1,
          log := s.log ++ [readEvent n] },
       .ok (x != 0)) := by
  have h1 : (0 : Int) ≤ (n : Int) * 3 ∧ (n : Int) * 3 < 256 := by omega
  have h2 : ((n : Int) * 3).toNat = n * 3 := by omega
  have hset : bytearray_set (List.replicate 6 0) 0 (pyMul3 (.int (n : Int))) =
      .ok ((List.replicate 6 0).set 0 (n * 3)) := by
    simp only [pyMul3, bytearray_set]
    rw [if_pos h1, h2]
  have hor : pyOr768 (pyMul3 (.int (n : Int))) =
      .ok (Int.lor 768 ((n : Int) * 3)) := rfl
  unfold _status
  simp only [hset, hor]
  rw [usb_command_first (0x21 ||| 0x80) 0x01 (Int.lor 768 ((n : Int) * 3)) 0
    ((List.replicate 6 0).set 0 (n * 3)) 500 s r hr]
  simp only [hx]
  rfl

/-- `_on(n)` when the initial read came back `false` and the write transfer
succeeds on its first attempt: the write is logged, then a fresh `_status`. -/
theorem on_after_false (n : Nat) (hn : n * 3 < 256) (s : BusState)
    (hfalse : (_status (.int (n : Int)) s).2 = .ok false)
    (r : List Nat)
    (hw : (_status (.int (n : Int)) s).1.transferOutcome
            ((_status (.int (n : Int)) s).1.transferCount) = .ok r) :
    _on (.int (n : Int)) s =
      _status (.int (n : Int))
        { (_status (.int (n : Int)) s).1 with
            transferCount := (_status (.int (n : Int)) s).1.transferCount + 1,
            log := (_status (.int (n : Int)) s).1.log ++ [writeOnEvent n] } := by
  have h1 : (0 : Int) ≤ (n : Int) * 3 ∧ (n : Int) * 3 < 256 := by omega
  have h2 : ((n : Int) * 3).toNat = n * 3 := by omega
  have hset : bytearray_set (List.replicate 6 0) 0 (pyMul3 (.int (n : Int))) =
      .ok ((List.replicate 6 0).set 0 (n * 3)) := by
    simp only [pyMul3, bytearray_set]
    rw [if_pos h1, h2]
  have hset2 : bytearray_set ((List.replicate 6 0).set 0 (n * 3)) 1
      (.int 0x03) = .ok (((List.replicate 6 0).set 0 (n * 3)).set 1 3) := by
    simp [bytearray_set]
  have hor : pyOr768 (pyMul3 (.int (n : Int))) =
      .ok (Int.lor 768 ((n : Int) * 3)) := rfl
  have peq : _status (.int (n : Int)) s =
      ((_status (.int (n : Int)) s).1, .ok false) := Prod.ext rfl hfalse
  unfold _on
  rw [peq]
  simp only [hset, hset2, hor]
  rw [usb_command_first 0x21 0x09 (Int.lor 768 ((n : Int) * 3)) 0
    (((List.replicate 6 0).set 0 (n * 3)).set 1 3) 500
    ((_status (.int (n : Int)) s).1) r hw]
  rfl

/-- `_off(n)` when the initial read came back `true` and the write transfer
succeeds on its first attempt: the write is logged, then the negation of a
fresh `_status`. -/
theorem off_after_true (n : Nat) (hn : n * 3 < 256) (s : BusState)
    (htrue : (_status (.int (n : Int)) s).2 = .ok true)
    (r : List Nat)
    (hw : (_status (.int (n : Int)) s).1.transferOutcome
            ((_status (.int (n : Int)) s).1.transferCount) = .ok r) :
    _off (.int (n : Int)) s =
      ((_status (.int (n : Int))
          { (_status (.int (n : Int)) s).1 with
              transferCount := (_status (.int (n : Int)) s).1.transferCount + 1,
              log := (_status (.int (n : Int)) s).1.log ++ [writeOffEvent n] }).1,
       mapNotExc (_status (.int (n : Int))
          { (_status (.int (n : Int)) s).1 with
              transferCount := (_status (.int (n : Int)) s).1.transferCount + 1,
              log := (_status (.int (n : Int)) s).1.log ++ [writeOffEvent n] }).2) := by
  have h1 : (0 : Int) ≤ (n : Int) * 3 ∧ (n : Int) * 3 < 256 := by omega
  have h2 : ((n : Int) * 3).toNat = n * 3 := by omega
  have hset : bytearray_set (List.replicate 6 0) 0 (pyMul3 (.int (n : Int))) =
      .ok ((List.replicate 6 0).set 0 (n * 3)) := by
    simp only [pyMul3, bytearray_set]
    rw [if_pos h1, h2]
  have hor : pyOr768 (pyMul3 (.int (n : Int))) =
      .ok (Int.lor 768 ((n : Int) * 3)) := rfl
  have peq : _status (.int (n : Int)) s =
      ((_status (.int (n : Int)) s).1, .ok true) := Prod.ext rfl htrue
  unfold _off
  rw [peq]
  simp only [hset, hor]
  rw [usb_command_first 0x21 0x09 (Int.lor 768 ((n : Int) * 3)) 0
    ((List.replicate 6 0).set 0 (n * 3)) 500
    ((_status (.int (n : Int)) s).1) r hw]
  rfl

/-- C1: for a valid outlet `n`, `_on(n)` with the status already `true`
returns `true` using only the initial read (no write transfer is ever issued
by a status read); with the status `false` and the write going through, it
issues exactly one write transfer and returns the result of a fresh status
re-read (so an ineffective write yields `false`, not an error).  `_off(n)` is
symmetric: already-off returns `true`; otherwise one write, then the negation
of the re-read status. -/
theorem c1_on_off_confirmation (n : Nat) (s : BusState)
    (hlo : 1 ≤ n) (hhi : n ≤ 4) :
    (writeCount (_status (.int (n : Int)) s).1 = writeCount s) ∧
    ((_status (.int (n : Int)) s).2 = .ok true →
      _on (.int (n : Int)) s = ((_status (.int (n : Int)) s).1, .ok true)) ∧
    (∀ r, (_status (.int (n : Int)) s).2 = .ok false →
      (_status (.int (n : Int)) s).1.transferOutcome
        ((_status (.int (n : Int)) s).1.transferCount) = .ok r →
      ∃ sw, _on (.int (n : Int)) s = _status (.int (n : Int)) sw ∧
        writeCount sw = writeCount s + 1 ∧
        writeCount (_on (.int (n : Int)) s).1 = writeCount s + 1) ∧
    ((_status (.int (n : Int)) s).2 = .ok false →
      _off (.int (n : Int)) s = ((_status (.int (n : Int)) s).1, .ok true)) ∧
    (∀ r, (_status (.int (n : Int)) s).2 = .ok true →
      (_status (.int (n : Int)) s).1.transferOutcome
        ((_status (.int (n : Int)) s).1.transferCount) = .ok r →
      ∃ sw, _off (.int (n : Int)) s =
          ((_status (.int (n : Int)) sw).1,
            mapNotExc (_status (.int (n : Int)) sw).2) ∧
        writeCount sw = writeCount s + 1 ∧
        writeCount (_off (.int (n : Int)) s).1 = writeCount s + 1) := by
  have hn : n * 3 < 256 := by omega
  have h1 : (_status (.int (n : Int)) s).1.log.countP isWriteEvent =
      writeCount s := (status_shape _ s).2
  have h2on : List.countP isWriteEvent [writeOnEvent n] = 1 := by
    simp [writeOnEvent, isWriteEvent]
  have h2off : List.countP isWriteEvent [writeOffEvent n] = 1 := by
    simp [writeOffEvent, isWriteEvent]
  refine ⟨(status_shape _ s).2, ?_, ?_, ?_, ?_⟩
  · intro h
    have peq : _status (.int (n : Int)) s =
        ((_status (.int (n : Int)) s).1, Except.ok true) := Prod.ext rfl h
    unfold _on
    rw [peq]
  · intro r hf hw
    refine ⟨{ (_status (.int (n : Int)) s).1 with
        transferCount := (_status (.int (n : Int)) s).1.transferCount + 1,
        log := (_status (.int (n : Int)) s).1.log ++ [writeOnEvent n] },
      on_after_false n hn s hf r hw, ?_, ?_⟩
    · show ((_status (.int (n : Int)) s).1.log ++ [writeOnEvent n]).countP
          isWriteEvent = writeCount s + 1
      rw [List.countP_append]
      omega
    · rw [on_after_false n hn s hf r hw]
      have h3 := (status_shape (.int (n : Int))
        { (_status (.int (n : Int)) s).1 with
            transferCount := (_status (.int (n : Int)) s).1.transferCount + 1,
            log := (_status (.int (n : Int)) s).1.log ++ [writeOnEvent n] }).2
      rw [h3]
      show ((_status (.int (n : Int)) s).1.log ++ [writeOnEvent n]).countP
          isWriteEvent = writeCount s + 1
      rw [List.countP_append]
      omega
  · intro h
    have peq : _status (.int (n : Int)) s =
        ((_status (.int (n : Int)) s).1, Except.ok false) := Prod.ext rfl h
    unfold _off
    rw [peq]
  · intro r ht hw
    refine ⟨{ (_status (.int (n : Int)) s).1 with
        transferCount := (_status (.int (n : Int)) s).1.transferCount + 1,
        log := (_status (.int (n : Int)) s).1.log ++ [writeOffEvent n] },
      off_after_true n hn s ht r hw, ?_, ?_⟩
    · show ((_status (.int (n : Int)) s).1.log ++ [writeOffEvent n]).countP
          isWriteEvent = writeCount s + 1
      rw [List.countP_append]
      omega
    · rw [off_after_true n hn s ht r hw]
      have h3 := (status_shape (.int (n : Int))
        { (_status (.int (n : Int)) s).1 with
            transferCount := (_status (.int (n : Int)) s).1.transferCount + 1,
            log := (_status (.int (n : Int)) s).1.log ++ [writeOffEvent n] }).2
      rw [h3]
      show ((_status (.int (n : Int)) s).1.log ++ [writeOffEvent n]).countP
          isWriteEvent = writeCount s + 1
      rw [List.countP_append]
      omega

/-- Witness for C1 at outlet 1 on a bus whose first read is off, whose write
succeeds and whose re-read is on. -/
theorem c1_witness :
    (_status (.int (1 : Int)) busC1).2 = .ok false ∧
    ∃ sw, _on (.int (1 : Int)) busC1 = _status (.int (1 : Int)) sw ∧
      writeCount sw = writeCount busC1 + 1 ∧
      writeCount (_on (.int (1 : Int)) busC1).1 = writeCount busC1 + 1 := by
  refine ⟨rfl, ?_⟩
  exact (c1_on_off_confirmation 1 busC1 (by decide) (by decide)).2.2.1
    [0, 0, 0, 0, 0, 0] rfl rfl

/-! Preservation of the dispose state through the operation bodies. -/

theorem on_preserves (num : PyVal) (s : BusState) : Preserves s (_on num s).1 := by
  unfold _on
  split
  next s1 e h =>
    have hp := (status_shape num s).1; rw [h] at hp; exact hp
  next s1 h =>
    have hp := (status_shape num s).1; rw [h] at hp; exact hp
  next s1 h =>
    have hp1 : Preserves s s1 := by
      have hp := (status_shape num s).1; rw [h] at hp; exact hp
    split
    · exact hp1
    next bytes0 hb0 =>
      split
      · exact hp1
      next bytes hb =>
        split
        · exact hp1
        next v hv =>
          split
          next s2 e hu =>
            have hp2 := usb_command_preserves 0x21 0x09 v 0 bytes 500 s1
            rw [hu] at hp2
            exact preserves_trans hp1 hp2
          next s2 a hu =>
            have hp2 := usb_command_preserves 0x21 0x09 v 0 bytes 500 s1
            rw [hu] at hp2
            exact preserves_trans (preserves_trans hp1 hp2)
              (status_shape num s2).1

theorem off_preserves (num : PyVal) (s : BusState) : Preserves s (_off num s).1 := by
  unfold _off
  split
  next s1 e h =>
    have hp := (status_shape num s).1; rw [h] at hp; exact hp
  next s1 h =>
    have hp := (status_shape num s).1; rw [h] at hp; exact hp
  next s1 h =>
    have hp1 : Preserves s s1 := by
      have hp := (status_shape num s).1; rw [h] at hp; exact hp
    split
    · exact hp1
    next bytes hb =>
      split
      · exact hp1
      next v hv =>
        split
        next s2 e hu =>
          have hp2 := usb_command_preserves 0x21 0x09 v 0 bytes 500 s1
          rw [hu] at hp2
          exact preserves_trans hp1 hp2
        next s2 a hu =>
          have hp2 := usb_command_preserves 0x21 0x09 v 0 bytes 500 s1
          rw [hu] at hp2
          exact preserves_trans (preserves_trans hp1 hp2)
            (status_shape num s2).1

theorem toggle_one_preserves (num : PyVal) (s : BusState) :
    Preserves s (toggle_one num s).1 := by
  unfold toggle_one
  split
  next s1 e h =>
    have hp := (status_shape num s).1; rw [h] at hp; exact hp
  next s1 b h =>
    have hp1 : Preserves s s1 := by
      have hp := (status_shape num s).1; rw [h] at hp; exact hp
    split
    · exact preserves_trans hp1 (off_preserves num s1)
    · exact preserves_trans hp1 (on_preserves num s1)

theorem mapOutlets_preserves (f : PyVal → BusState → BusState × Except PyError Bool)
    (hf : ∀ v s', Preserves s' (f v s').1) :
    ∀ (os : List Nat) (s : BusState), Preserves s (mapOutlets f os s).1 := by
  intro os
  induction os with
  | nil => intro s; exact preserves_rfl s
  | cons i rest ih =>
    intro s
    unfold mapOutlets
    split
    next s1 e h =>
      have hp := hf (.int i) s; rw [h] at hp; exact hp
    next s1 b h =>
      have hp1 : Preserves s s1 := by
        have hp := hf (.int i) s; rw [h] at hp; exact hp
      split
      next s2 e h2 =>
        have hp2 := ih s1; rw [h2] at hp2; exact preserves_trans hp1 hp2
      next s2 m h2 =>
        have hp2 := ih s1; rw [h2] at hp2; exact preserves_trans hp1 hp2

theorem dispatch_preserves (f : PyVal → BusState → BusState × Except PyError Bool)
    (hf : ∀ v s', Preserves s' (f v s').1) (d : OutletDevice) (num : PyVal)
    (s : BusState) : Preserves s (dispatch f d num s).1 := by
  unfold dispatch
  split
  · exact preserves_rfl s
  next os ho =>
    split
    · split
      next s1 e h =>
        have hp := hf num s; rw [h] at hp; exact hp
      next s1 b h =>
        have hp := hf num s; rw [h] at hp; exact hp
    · split
      · split
        next s1 e h =>
          have hp := mapOutlets_preserves f hf os s; rw [h] at hp; exact hp
        next s1 m h =>
          have hp := mapOutlets_preserves f hf os s; rw [h] at hp; exact hp
      · exact preserves_rfl s

theorem get_serial_body_preserves (s : BusState) :
    Preserves s (get_serial_body s).1 := by
  unfold get_serial_body
  split
  next s1 e hu =>
    have hp := usb_command_preserves 0xA1 0x01 (Int.lor 768 1) 0
      (List.replicate 6 0) 500 s
    rw [hu] at hp; exact hp
  next s1 b hu =>
    have hp := usb_command_preserves 0xA1 0x01 (Int.lor 768 1) 0
      (List.replicate 6 0) 500 s
    rw [hu] at hp; exact hp

/-- The `@autodispose` wrapper: result unchanged (a dispose failure is
swallowed under every dispose oracle), one dispose call if and only if the
flag is set, and a no-op wrapper when the flag is clear. -/
theorem autodispose_wrap_spec {α : Type} (d : OutletDevice)
    (body : BusState → BusState × Except PyError α) (s : BusState) :
    (autodispose_wrap d body s).2 = (body s).2 ∧
    (autodispose_wrap d body s).1.disposeCount =
      (body s).1.disposeCount + (if d.autodispose then 1 else 0) ∧
    (d.autodispose = false → autodispose_wrap d body s = body s) := by
  unfold autodispose_wrap dispose_resources
  cases hd : d.autodispose <;> simp [hd]

/-- C4: each public operation (`status`, `on`, `off`, `toggle`, and the
internal serial read) releases the device exactly once after the body runs
when `autodispose` is set — on success and on every error path alike — and
returns the body's own result, under every dispose oracle (so a failing
release is swallowed and never replaces the result); with the flag clear no
release happens, while `dispose()` itself always releases once. -/
theorem c4_auto_release (d : OutletDevice) (num : PyVal) (s : BusState) :
    ((OutletDevice.status d num s).2 = (dispatch _status d num s).2 ∧
      (OutletDevice.status d num s).1.disposeCount =
        s.disposeCount + (if d.autodispose then 1 else 0)) ∧
    ((OutletDevice.on d num s).2 = (dispatch _on d num s).2 ∧
      (OutletDevice.on d num s).1.disposeCount =
        s.disposeCount + (if d.autodispose then 1 else 0)) ∧
    ((OutletDevice.off d num s).2 = (dispatch _off d num s).2 ∧
      (OutletDevice.off d num s).1.disposeCount =
        s.disposeCount + (if d.autodispose then 1 else 0)) ∧
    ((OutletDevice.toggle d num s).2 = (dispatch toggle_one d num s).2 ∧
      (OutletDevice.toggle d num s).1.disposeCount =
        s.disposeCount + (if d.autodispose then 1 else 0)) ∧
    ((_get_serial d s).2 = (get_serial_body s).2 ∧
      (_get_serial d s).1.disposeCount =
        s.disposeCount + (if d.autodispose then 1 else 0)) ∧
    (OutletDevice.dispose s).1.disposeCount = s.disposeCount + 1 := by
  have hs := dispatch_preserves _status (fun v s' => (status_shape v s').1) d num s
  have hon := dispatch_preserves _on on_preserves d num s
  have hoff := dispatch_preserves _off off_preserves d num s
  have htog := dispatch_preserves toggle_one toggle_one_preserves d num s
  have hser := get_serial_body_preserves s
  refine ⟨⟨(autodispose_wrap_spec d (dispatch _status d num) s).1, ?_⟩,
    ⟨(autodispose_wrap_spec d (dispatch _on d num) s).1, ?_⟩,
    ⟨(autodispose_wrap_spec d (dispatch _off d num) s).1, ?_⟩,
    ⟨(autodispose_wrap_spec d (dispatch toggle_one d num) s).1, ?_⟩,
    ⟨(autodispose_wrap_spec d get_serial_body s).1, ?_⟩, rfl⟩
  · rw [show (OutletDevice.status d num s).1.disposeCount =
        (dispatch _status d num s).1.disposeCount +
          (if d.autodispose then 1 else 0) from
      (autodispose_wrap_spec d (dispatch _status d num) s).2.1, hs.2.2]
  · rw [show (OutletDevice.on d num s).1.disposeCount =
        (dispatch _on d num s).1.disposeCount +
          (if d.autodispose then 1 else 0) from
      (autodispose_wrap_spec d (dispatch _on d num) s).2.1, hon.2.2]
  · rw [show (OutletDevice.off d num s).1.disposeCount =
        (dispatch _off d num s).1.disposeCount +
          (if d.autodispose then 1 else 0) from
      (autodispose_wrap_spec d (dispatch _off d num) s).2.1, hoff.2.2]
  · rw [show (OutletDevice.toggle d num s).1.disposeCount =
        (dispatch toggle_one d num s).1.disposeCount +
          (if d.autodispose then 1 else 0) from
      (autodispose_wrap_spec d (dispatch toggle_one d num) s).2.1, htog.2.2]
  · rw [show (_get_serial d s).1.disposeCount =
        (get_serial_body s).1.disposeCount +
          (if d.autodispose then 1 else 0) from
      (autodispose_wrap_spec d get_serial_body s).2.1, hser.2.2]

/-! Outlet validation: illegal values, unknown product ids, numeric `==`. -/

theorem postDispose_transferCount (d : OutletDevice) (s : BusState) :
    (postDispose d s).transferCount = s.transferCount := by
  unfold postDispose dispose_resources
  cases hd : d.autodispose <;> simp

theorem dispatch_illegal (f : PyVal → BusState → BusState × Except PyError Bool)
    (d : OutletDevice) (num : PyVal) (s : BusState) (p : List Nat × String)
    (hl : DEVICE_TYPES.lookup d.idProduct = some p)
    (hg1 : (p.1.any fun o => pyEq num (.int o)) = false)
    (hg2 : pyEq num (.str "all") = false) :
    dispatch f d num s = (s, .error (.outlet num)) := by
  unfold dispatch OutletDevice.outlets
  rw [hl]
  simp only [hg1, hg2]
  rfl

theorem wrap_of_body {α : Type} (d : OutletDevice)
    (body : BusState → BusState × Except PyError α) (s s1 : BusState)
    (r : Except PyError α) (h : body s = (s1, r)) :
    autodispose_wrap d body s = (postDispose d s1, r) := by
  unfold autodispose_wrap postDispose
  rw [h]
  cases hd : d.autodispose <;> simp

/-- C3: a value that is neither a member of the device's outlet tuple nor
equal to `'all'` makes every public operation raise the illegal-outlet error
carrying the value itself, with zero transfers performed. -/
theorem c3_illegal_outlet (d : OutletDevice) (num : PyVal) (s : BusState)
    (p : List Nat × String)
    (hl : DEVICE_TYPES.lookup d.idProduct = some p)
    (hg1 : (p.1.any fun o => pyEq num (.int o)) = false)
    (hg2 : pyEq num (.str "all") = false) :
    OutletDevice.status d num s = (postDispose d s, .error (.outlet num)) ∧
    OutletDevice.on d num s = (postDispose d s, .error (.outlet num)) ∧
    OutletDevice.off d num s = (postDispose d s, .error (.outlet num)) ∧
    OutletDevice.toggle d num s = (postDispose d s, .error (.outlet num)) ∧
    (OutletDevice.status d num s).1.transferCount = s.transferCount ∧
    (OutletDevice.on d num s).1.transferCount = s.transferCount ∧
    (OutletDevice.off d num s).1.transferCount = s.transferCount ∧
    (OutletDevice.toggle d num s).1.transferCount = s.transferCount := by
  have hs := wrap_of_body d (dispatch _status d num) s s _
    (dispatch_illegal _status d num s p hl hg1 hg2)
  have hon := wrap_of_body d (dispatch _on d num) s s _
    (dispatch_illegal _on d num s p hl hg1 hg2)
  have hoff := wrap_of_body d (dispatch _off d num) s s _
    (dispatch_illegal _off d num s p hl hg1 hg2)
  have htog := wrap_of_body d (dispatch toggle_one d num) s s _
    (dispatch_illegal toggle_one d num s p hl hg1 hg2)
  refine ⟨hs, hon, hoff, htog, ?_, ?_, ?_, ?_⟩
  · rw [show (OutletDevice.status d num s).1 = postDispose d s from congrArg Prod.fst hs]
    exact postDispose_transferCount d s
  · rw [show (OutletDevice.on d num s).1 = postDispose d s from congrArg Prod.fst hon]
    exact postDispose_transferCount d s
  · rw [show (OutletDevice.off d num s).1 = postDispose d s from congrArg Prod.fst hoff]
    exact postDispose_transferCount d s
  · rw [show (OutletDevice.toggle d num s).1 = postDispose d s from congrArg Prod.fst htog]
    exact postDispose_transferCount d s

/-- Witness for C3: `status(5)` on a 4-socket device. -/
theorem c3_witness :
    OutletDevice.status devSis (.int 5) busOnline =
      (postDispose devSis busOnline, .error (.outlet (.int 5))) ∧
    (OutletDevice.status devSis (.int 5) busOnline).1.transferCount =
      busOnline.transferCount := by
  have h := c3_illegal_outlet devSis (.int 5) busOnline
    ([1, 2, 3, 4], "4-socket SiS-PM") rfl (by decide) (by decide)
  exact ⟨h.1, h.2.2.2.2.1⟩

theorem dispatch_keyError (f : PyVal → BusState → BusState × Except PyError Bool)
    (d : OutletDevice) (num : PyVal) (s : BusState)
    (hl : DEVICE_TYPES.lookup d.idProduct = none) :
    dispatch f d num s = (s, .error .keyError) := by
  unfold dispatch OutletDevice.outlets
  rw [hl]

theorem get_serial_body_first (s : BusState) (r : List Nat)
    (hr : s.transferOutcome s.transferCount = .ok r) :
    get_serial_body s =
      ({ s with
          transferCount := s.transferCount + 1,
          log := s.log ++ [serialReadEvent] }, .ok r) := by
  unfold get_serial_body
  rw [usb_command_first 0xA1 0x01 (Int.lor 768 1) 0 (List.replicate 6 0) 500 s r hr]
  rfl

theorem serial_first (d : OutletDevice) (s : BusState) (r : List Nat)
    (hr : s.transferOutcome s.transferCount = .ok r) :
    OutletDevice.serial d s =
      (postDispose d
        { s with
            transferCount := s.transferCount + 1,
            log := s.log ++ [serialReadEvent] },
       .ok (formatSerial r)) := by
  unfold OutletDevice.serial _get_serial
  rw [wrap_of_body d get_serial_body s _ _ (get_serial_body_first s r hr)]

/-- C9 (amended): with a product id outside `DEVICE_TYPES`, the four outlet
operations (any argument) and the `outlets` accessor raise the key-lookup
error before any transfer; `info`, however, performs the serial read (a real
transfer) first and only then hits the key-lookup error. -/
theorem c9_unknown_product (d : OutletDevice) (num : PyVal) (s : BusState)
    (hl : DEVICE_TYPES.lookup d.idProduct = none) :
    OutletDevice.status d num s = (postDispose d s, .error .keyError) ∧
    OutletDevice.on d num s = (postDispose d s, .error .keyError) ∧
    OutletDevice.off d num s = (postDispose d s, .error .keyError) ∧
    OutletDevice.toggle d num s = (postDispose d s, .error .keyError) ∧
    OutletDevice.outlets d = .error .keyError ∧
    (OutletDevice.status d num s).1.transferCount = s.transferCount ∧
    (∀ r, s.transferOutcome s.transferCount = .ok r →
      (OutletDevice.info d s).2 = .error .keyError ∧
      (OutletDevice.info d s).1.transferCount = s.transferCount + 1) := by
  have hs := wrap_of_body d (dispatch _status d num) s s _
    (dispatch_keyError _status d num s hl)
  have hon := wrap_of_body d (dispatch _on d num) s s _
    (dispatch_keyError _on d num s hl)
  have hoff := wrap_of_body d (dispatch _off d num) s s _
    (dispatch_keyError _off d num s hl)
  have htog := wrap_of_body d (dispatch toggle_one d num) s s _
    (dispatch_keyError toggle_one d num s hl)
  have hout : OutletDevice.outlets d = .error .keyError := by
    unfold OutletDevice.outlets
    rw [hl]
  refine ⟨hs, hon, hoff, htog, hout, ?_, ?_⟩
  · rw [show (OutletDevice.status d num s).1 = postDispose d s from
      congrArg Prod.fst hs]
    exact postDispose_transferCount d s
  · intro r hr
    have hinfo : OutletDevice.info d s =
        (postDispose d
          { s with
              transferCount := s.transferCount + 1,
              log := s.log ++ [serialReadEvent] },
         .error .keyError) := by
      unfold OutletDevice.info
      rw [serial_first d s r hr, hl]
    rw [hinfo]
    refine ⟨rfl, ?_⟩
    rw [show (postDispose d
        { s with
            transferCount := s.transferCount + 1,
            log := s.log ++ [serialReadEvent] }).transferCount =
      s.transferCount + 1 from postDispose_transferCount d _]

/-- Witness for C9 (amended) on a session with product id `0x9999`. -/
theorem c9_witness :
    OutletDevice.status devUnknown (.int 1) busOnline =
      (postDispose devUnknown busOnline, .error .keyError) ∧
    (OutletDevice.info devUnknown busOnline).2 = .error .keyError ∧
    (OutletDevice.info devUnknown busOnline).1.transferCount =
      busOnline.transferCount + 1 := by
  have h := c9_unknown_product devUnknown (.int 1) busOnline rfl
  exact ⟨h.1, h.2.2.2.2.2.2 [0, 1, 0, 0, 0, 0] rfl⟩

/-- Counterexample to C9 as stated: `info` on an unknown product id does
perform a USB transfer (the serial read) before failing with the key-lookup
error, so "before any USB transfer" is false for the `info` accessor. -/
theorem c9_counterexample :
    (OutletDevice.info devUnknown busOnline).2 = Except.error PyError.keyError ∧
    (OutletDevice.info devUnknown busOnline).1.transferCount ≠
      busOnline.transferCount := by
  exact ⟨rfl, by decide⟩

theorem any_pyEq_of_mem (v : PyVal) (os : List Nat) (o : Nat) (ho : o ∈ os)
    (he : pyEq v (.int (o : Int)) = true) :
    (os.any fun i => pyEq v (.int (i : Int))) = true :=
  List.any_eq_true.mpr ⟨o, ho, he⟩

theorem wrap_congr {α : Type} (d : OutletDevice)
    (b1 b2 : BusState → BusState × Except PyError α) (s : BusState)
    (h : b1 s = b2 s) :
    autodispose_wrap d b1 s = autodispose_wrap d b2 s := by
  unfold autodispose_wrap
  rw [h]

theorem dispatch_true_one (f : PyVal → BusState → BusState × Except PyError Bool)
    (d : OutletDevice) (s : BusState) (p : List Nat × String)
    (hl : DEVICE_TYPES.lookup d.idProduct = some p) (h1 : 1 ∈ p.1)
    (hf : f (.bool true) s = f (.int 1) s) :
    dispatch f d (.bool true) s = dispatch f d (.int 1) s := by
  unfold dispatch OutletDevice.outlets
  simp only [hl]
  have ha : (p.1.any fun o => pyEq (.bool true) (.int (o : Int))) = true :=
    any_pyEq_of_mem _ _ 1 h1 (by decide)
  have hb : (p.1.any fun o => pyEq (.int 1) (.int (o : Int))) = true :=
    any_pyEq_of_mem _ _ 1 h1 (by decide)
  rw [if_pos ha, if_pos hb, hf]

theorem dispatch_float_err (f : PyVal → BusState → BusState × Except PyError Bool)
    (d : OutletDevice) (s : BusState) (p : List Nat × String)
    (hl : DEVICE_TYPES.lookup d.idProduct = some p) (h1 : 1 ∈ p.1)
    (hf : f (.float 1) s = (s, .error .typeError)) :
    dispatch f d (.float 1) s = (s, .error .typeError) := by
  unfold dispatch OutletDevice.outlets
  simp only [hl]
  have ha : (p.1.any fun o => pyEq (.float 1) (.int (o : Int))) = true :=
    any_pyEq_of_mem _ _ 1 h1 (by decide)
  rw [if_pos ha, hf]

/-- C10 (amended): outlet validation uses Python `==`, so `True` is accepted
as outlet 1 and each operation behaves exactly as with `1`; `1.0` also passes
the membership test (no illegal-outlet error) but then fails with a type
error while building the request buffer, before any transfer. -/
theorem c10_value_equality (d : OutletDevice) (s : BusState)
    (p : List Nat × String)
    (hl : DEVICE_TYPES.lookup d.idProduct = some p) (h1 : 1 ∈ p.1) :
    OutletDevice.status d (.bool true) s = OutletDevice.status d (.int 1) s ∧
    OutletDevice.on d (.bool true) s = OutletDevice.on d (.int 1) s ∧
    OutletDevice.off d (.bool true) s = OutletDevice.off d (.int 1) s ∧
    OutletDevice.toggle d (.bool true) s = OutletDevice.toggle d (.int 1) s ∧
    (p.1.any fun o => pyEq (.float 1) (.int (o : Int))) = true ∧
    OutletDevice.status d (.float 1) s = (postDispose d s, .error .typeError) ∧
    OutletDevice.on d (.float 1) s = (postDispose d s, .error .typeError) ∧
    OutletDevice.off d (.float 1) s = (postDispose d s, .error .typeError) ∧
    OutletDevice.toggle d (.float 1) s = (postDispose d s, .error .typeError) := by
  refine ⟨wrap_congr d _ _ s (dispatch_true_one _status d s p hl h1 rfl),
    wrap_congr d _ _ s (dispatch_true_one _on d s p hl h1 rfl),
    wrap_congr d _ _ s (dispatch_true_one _off d s p hl h1 rfl),
    wrap_congr d _ _ s (dispatch_true_one toggle_one d s p hl h1 rfl),
    any_pyEq_of_mem _ _ 1 h1 (by decide),
    wrap_of_body d _ s s _ (dispatch_float_err _status d s p hl h1 rfl),
    wrap_of_body d _ s s _ (dispatch_float_err _on d s p hl h1 rfl),
    wrap_of_body d _ s s _ (dispatch_float_err _off d s p hl h1 rfl),
    wrap_of_body d _ s s _ (dispatch_float_err toggle_one d s p hl h1 rfl)⟩

/-- Witness for C10 (amended) on a 4-socket device with a live bus. -/
theorem c10_witness :
    OutletDevice.status devSis (.bool true) busOnline =
      OutletDevice.status devSis (.int 1) busOnline ∧
    OutletDevice.status devSis (.float 1) busOnline =
      (postDispose devSis busOnline, .error .typeError) := by
  have h := c10_value_equality devSis busOnline
    ([1, 2, 3, 4], "4-socket SiS-PM") rfl (by decide)
  exact ⟨h.1, h.2.2.2.2.2.1⟩

/-- Counterexample to C10 as stated: `status(1.0)` does not perform the
outlet-1 operation — it raises a type error, unlike `status(1)` which
returns the outlet's status. -/
theorem c10_counterexample :
    (OutletDevice.status devSis (.float 1) busOnline).2 =
      Except.error PyError.typeError ∧
    (OutletDevice.status devSis (.int 1) busOnline).2 =
      Except.ok (OpResult.single true) ∧
    (OutletDevice.status devSis (.float 1) busOnline).2 ≠
      (OutletDevice.status devSis (.int 1) busOnline).2 := by
  refine ⟨rfl, rfl, ?_⟩
  rw [show (OutletDevice.status devSis (.float 1) busOnline).2 =
      Except.error PyError.typeError from rfl,
    show (OutletDevice.status devSis (.int 1) busOnline).2 =
      Except.ok (OpResult.single true) from rfl]
  exact fun h => Except.noConfusion h

/-! The toggle read pattern (C5). -/

theorem lookup_outlets (pid : Nat) (p : List Nat × String)
    (hl : DEVICE_TYPES.lookup pid = some p) :
    p.1 = [1] ∨ p.1 = [1, 2, 3, 4] := by
  unfold DEVICE_TYPES at hl
  simp only [List.lookup] at hl
  split at hl
  · cases Option.some.inj hl; exact Or.inl rfl
  · split at hl
    · cases Option.some.inj hl; exact Or.inr rfl
    · split at hl
      · cases Option.some.inj hl; exact Or.inl rfl
      · split at hl
        · cases Option.some.inj hl; exact Or.inr rfl
        · exact absurd hl (by simp)

theorem outlets_bound (pid : Nat) (p : List Nat × String) (n : Nat)
    (hl : DEVICE_TYPES.lookup pid = some p) (hn : n ∈ p.1) :
    1 ≤ n ∧ n ≤ 4 := by
  rcases lookup_outlets pid p hl with h | h <;> rw [h] at hn <;>
    simp only [List.mem_cons, List.mem_singleton, List.not_mem_nil,
      or_false] at hn <;> omega

theorem any_int_of_mem (os : List Nat) (n : Nat) (hn : n ∈ os) :
    (os.any fun o => pyEq (.int (n : Int)) (.int (o : Int))) = true :=
  List.any_eq_true.mpr ⟨n, hn, by simp [pyEq]⟩

/-- A public operation given a member outlet number takes the single-outlet
branch: exactly the per-outlet operation's transfers and its boxed result. -/
theorem dispatch_member (f : PyVal → BusState → BusState × Except PyError Bool)
    (d : OutletDevice) (n : Nat) (s : BusState) (p : List Nat × String)
    (hl : DEVICE_TYPES.lookup d.idProduct = some p) (hn : n ∈ p.1) :
    dispatch f d (.int (n : Int)) s =
      ((f (.int (n : Int)) s).1, singleResult (f (.int (n : Int)) s).2) := by
  unfold dispatch OutletDevice.outlets
  simp only [hl]
  rw [if_pos (any_int_of_mem p.1 n hn)]
  rcases hf : f (.int (n : Int)) s with ⟨s1, r1⟩
  cases r1 <;> simp [singleResult]

/-- C5: `toggle(n)` for a valid outlet first performs exactly one status
read; the branch (`_off` when that read was on, `_on` otherwise) then runs
from exactly the post-read state, issuing its own transfers, and the public
result is the branch's result (boxed), dispose-wrapped — nothing elided or
merged. -/
theorem c5_toggle_sequence (d : OutletDevice) (n : Nat) (s : BusState)
    (p : List Nat × String)
    (hl : DEVICE_TYPES.lookup d.idProduct = some p) (hn : n ∈ p.1)
    (r0 : List Nat) (x : Nat)
    (h0 : s.transferOutcome s.transferCount = .ok r0)
    (hx : r0.get? 1 = some x) :
    _status (.int (n : Int)) s =
      ({ s with
          transferCount := s.transferCount + 1,
          log := s.log ++ [readEvent n] }, .ok (x != 0)) ∧
    toggle_one (.int (n : Int)) s =
      (if x != 0 then
        _off (.int (n : Int))
          { s with
              transferCount := s.transferCount + 1,
              log := s.log ++ [readEvent n] }
       else
        _on (.int (n : Int))
          { s with
              transferCount := s.transferCount + 1,
              log := s.log ++ [readEvent n] }) ∧
    OutletDevice.toggle d (.int (n : Int)) s =
      (postDispose d (toggle_one (.int (n : Int)) s).1,
       singleResult (toggle_one (.int (n : Int)) s).2) := by
  have hb := outlets_bound d.idProduct p n hl hn
  have hn3 : n * 3 < 256 := by omega
  have hst := status_int_first n hn3 s r0 x h0 hx
  refine ⟨hst, ?_, ?_⟩
  · unfold toggle_one
    rw [hst]
  · exact wrap_of_body d _ s _ _ (dispatch_member toggle_one d n s p hl hn)

/-- Witness for C5: toggling outlet 3 on a live bus whose reads are on. -/
theorem c5_witness :
    OutletDevice.toggle devSis (.int (3 : Int)) busOnline =
      (postDispose devSis (toggle_one (.int (3 : Int)) busOnline).1,
       singleResult (toggle_one (.int (3 : Int)) busOnline).2) ∧
    toggle_one (.int (3 : Int)) busOnline =
      _off (.int (3 : Int))
        { busOnline with
            transferCount := busOnline.transferCount + 1,
            log := busOnline.log ++ [readEvent 3] } := by
  have h := c5_toggle_sequence devSis 3 busOnline ([1, 2, 3, 4], "4-socket SiS-PM")
    rfl (by decide) [0, 1, 0, 0, 0, 0] 1 rfl rfl
  exact ⟨h.2.2, h.2.1⟩

/-! The `'all'` fan-out (C6). -/

theorem goodOracle_of_eq (s t : BusState)
    (h : t.transferOutcome = s.transferOutcome) (hg : GoodOracle s) :
    GoodOracle t := by
  intro j
  rw [h]
  exact hg j

theorem expectedEntries_congr (os : List Nat) :
    ∀ (tc : Nat) (s t : BusState),
    t.transferOutcome = s.transferOutcome →
    expectedEntries os tc t = expectedEntries os tc s := by
  induction os with
  | nil => intro tc s t _; rfl
  | cons i rest ih =>
    intro tc s t h
    unfold expectedEntries
    rw [h, ih (tc + 1) s t h]

theorem expectedEntries_keys (os : List Nat) :
    ∀ (tc : Nat) (s : BusState),
    (expectedEntries os tc s).map Prod.fst = os := by
  induction os with
  | nil => intro tc s; rfl
  | cons i rest ih =>
    intro tc s
    unfold expectedEntries
    simp [ih]

/-- Under a good oracle, `mapOutlets _status` visits the outlets in order,
one read each, and returns exactly the per-outlet decoded statuses. -/
theorem mapOutlets_status (os : List Nat) :
    ∀ (s : BusState), (∀ i ∈ os, i * 3 < 256) → GoodOracle s →
    mapOutlets _status os s =
      ({ s with
          transferCount := s.transferCount + os.length,
          log := s.log ++ os.map readEvent },
       .ok (expectedEntries os s.transferCount s)) := by
  induction os with
  | nil =>
    intro s _ _
    unfold mapOutlets expectedEntries
    refine Prod.ext ?_ rfl
    ext
    · rfl
    · simp
    · rfl
    · rfl
    · simp
  | cons i rest ih =>
    intro s hos hg
    obtain ⟨r, x, hr, hx⟩ := hg s.transferCount
    have hi3 : i * 3 < 256 := hos i (by simp)
    have hst := status_int_first i hi3 s r x hr hx
    unfold mapOutlets
    simp only [hst]
    have hrec := ih
      { s with
          transferCount := s.transferCount + 1,
          log := s.log ++ [readEvent i] }
      (fun j hj => hos j (by simp [hj]))
      (goodOracle_of_eq s _ rfl hg)
    rw [hrec]
    have hdec : decodeByte1 (s.transferOutcome s.transferCount) = (x != 0) := by
      rw [hr]
      simp only [decodeByte1]
      rw [hx]
      rfl
    have htail : expectedEntries rest (s.transferCount + 1)
        { s with
            transferCount := s.transferCount + 1,
            log := s.log ++ [readEvent i] } =
        expectedEntries rest (s.transferCount + 1) s :=
      expectedEntries_congr rest (s.transferCount + 1) s _ rfl
    refine Prod.ext ?_ ?_
    · ext
      · rfl
      · simp; omega
      · rfl
      · rfl
      · simp
    · show Except.ok ((i, x != 0) ::
          expectedEntries rest (s.transferCount + 1)
            { s with
                transferCount := s.transferCount + 1,
                log := s.log ++ [readEvent i] }) =
        Except.ok (expectedEntries (i :: rest) s.transferCount s)
      rw [htail]
      rw [show expectedEntries (i :: rest) s.transferCount s =
          (i, decodeByte1 (s.transferOutcome s.transferCount)) ::
            expectedEntries rest (s.transferCount + 1) s from rfl]
      rw [hdec]

/-- Under a good oracle, `_on` always terminates with an `.ok` boolean and
leaves the transfer oracle unchanged. -/
theorem on_good (i : Nat) (hi : i * 3 < 256) (s : BusState) (hg : GoodOracle s) :
    ∃ t b, _on (.int (i : Int)) s = (t, .ok b) ∧
      t.transferOutcome = s.transferOutcome := by
  obtain ⟨r, x, hr, hx⟩ := hg s.transferCount
  have hst := status_int_first i hi s r x hr hx
  cases hxx : x != 0
  case true =>
    rw [hxx] at hst
    refine ⟨{ s with
        transferCount := s.transferCount + 1,
        log := s.log ++ [readEvent i] }, true, ?_, rfl⟩
    unfold _on
    rw [hst]
  case false =>
    rw [hxx] at hst
    have hfalse : (_status (.int (i : Int)) s).2 = .ok false := by rw [hst]
    obtain ⟨r2, x2, hr2, hx2⟩ := hg (s.transferCount + 1)
    have hw : (_status (.int (i : Int)) s).1.transferOutcome
        ((_status (.int (i : Int)) s).1.transferCount) = .ok r2 := by
      rw [hst]
      exact hr2
    have hon := on_after_false i hi s hfalse r2 hw
    rw [hst] at hon
    obtain ⟨r3, x3, hr3, hx3⟩ := hg (s.transferCount + 2)
    have hst2 := status_int_first i hi
      { s with
          transferCount := s.transferCount + 2,
          log := s.log ++ [readEvent i] ++ [writeOnEvent i] } r3 x3 hr3 hx3
    refine ⟨{ s with
        transferCount := s.transferCount + 3,
        log := s.log ++ [readEvent i] ++ [writeOnEvent i] ++ [readEvent i] },
      x3 != 0, ?_, rfl⟩
    rw [hon]
    show _status (.int (i : Int))
        { s with
            transferCount := s.transferCount + 2,
            log := s.log ++ [readEvent i] ++ [writeOnEvent i] } =
      ({ s with
          transferCount := s.transferCount + 3,
          log := s.log ++ [readEvent i] ++ [writeOnEvent i] ++ [readEvent i] },
       .ok (x3 != 0))
    exact hst2

/-- Under a good oracle, `_off` always terminates with an `.ok` boolean and
leaves the transfer oracle unchanged. -/
theorem off_good (i : Nat) (hi : i * 3 < 256) (s : BusState) (hg : GoodOracle s) :
    ∃ t b, _off (.int (i : Int)) s = (t, .ok b) ∧
      t.transferOutcome = s.transferOutcome := by
  obtain ⟨r, x, hr, hx⟩ := hg s.transferCount
  have hst := status_int_first i hi s r x hr hx
  cases hxx : x != 0
  case false =>
    rw [hxx] at hst
    refine ⟨{ s with
        transferCount := s.transferCount + 1,
        log := s.log ++ [readEvent i] }, true, ?_, rfl⟩
    unfold _off
    rw [hst]
  case true =>
    rw [hxx] at hst
    have htrue : (_status (.int (i : Int)) s).2 = .ok true := by rw [hst]
    obtain ⟨r2, x2, hr2, hx2⟩ := hg (s.transferCount + 1)
    have hw : (_status (.int (i : Int)) s).1.transferOutcome
        ((_status (.int (i : Int)) s).1.transferCount) = .ok r2 := by
      rw [hst]
      exact hr2
    have hoff := off_after_true i hi s htrue r2 hw
    rw [hst] at hoff
    obtain ⟨r3, x3, hr3, hx3⟩ := hg (s.transferCount + 2)
    have hst2 := status_int_first i hi
      { s with
          transferCount := s.transferCount + 2,
          log := s.log ++ [readEvent i] ++ [writeOffEvent i] } r3 x3 hr3 hx3
    refine ⟨{ s with
        transferCount := s.transferCount + 3,
        log := s.log ++ [readEvent i] ++ [writeOffEvent i] ++ [readEvent i] },
      !(x3 != 0), ?_, rfl⟩
    rw [hoff]
    show ((_status (.int (i : Int))
        { s with
            transferCount := s.transferCount + 2,
            log := s.log ++ [readEvent i] ++ [writeOffEvent i] }).1,
      mapNotExc (_status (.int (i : Int))
        { s with
            transferCount := s.transferCount + 2,
            log := s.log ++ [readEvent i] ++ [writeOffEvent i] }).2) =
      ({ s with
          transferCount := s.transferCount + 3,
          log := s.log ++ [readEvent i] ++ [writeOffEvent i] ++ [readEvent i] },
       .ok (!(x3 != 0)))
    rw [hst2]
    rfl

/-- Under a good oracle, the toggle expression always terminates with an
`.ok` boolean and leaves the transfer oracle unchanged. -/
theorem toggle_good (i : Nat) (hi : i * 3 < 256) (s : BusState)
    (hg : GoodOracle s) :
    ∃ t b, toggle_one (.int (i : Int)) s = (t, .ok b) ∧
      t.transferOutcome = s.transferOutcome := by
  obtain ⟨r, x, hr, hx⟩ := hg s.transferCount
  have hst := status_int_first i hi s r x hr hx
  have htog : toggle_one (.int (i : Int)) s =
      if x != 0 then
        _off (.int (i : Int))
          { s with
              transferCount := s.transferCount + 1,
              log := s.log ++ [readEvent i] }
      else
        _on (.int (i : Int))
          { s with
              transferCount := s.transferCount + 1,
              log := s.log ++ [readEvent i] } := by
    unfold toggle_one
    rw [hst]
  cases hxx : x != 0
  case true =>
    obtain ⟨t, b, hb, ht⟩ := off_good i hi
      { s with
          transferCount := s.transferCount + 1,
          log := s.log ++ [readEvent i] }
      (goodOracle_of_eq s _ rfl hg)
    refine ⟨t, b, ?_, ht⟩
    rw [htog, hxx, if_pos rfl]
    exact hb
  case false =>
    obtain ⟨t, b, hb, ht⟩ := on_good i hi
      { s with
          transferCount := s.transferCount + 1,
          log := s.log ++ [readEvent i] }
      (goodOracle_of_eq s _ rfl hg)
    refine ⟨t, b, ?_, ht⟩
    rw [htog, hxx, if_neg Bool.false_ne_true]
    exact hb

/-- The fan-out visits every outlet: if each per-outlet call succeeds (and
keeps the oracle), the resulting mapping has exactly the outlet tuple as its
keys, in order, and each value is that outlet's own sub-call result. -/
theorem mapOutlets_ok (f : PyVal → BusState → BusState × Except PyError Bool)
    (F : Nat → Except UsbError (List Nat)) (os : List Nat)
    (hf : ∀ i s', i ∈ os → s'.transferOutcome = F →
      ∃ t b, f (.int (i : Int)) s' = (t, .ok b) ∧ t.transferOutcome = F) :
    ∀ s, s.transferOutcome = F →
    ∃ t m, mapOutlets f os s = (t, .ok m) ∧ t.transferOutcome = F ∧
      m.map Prod.fst = os ∧
      ∀ q ∈ m, ∃ t1 t2, f (.int (q.1 : Int)) t1 = (t2, .ok q.2) := by
  induction os with
  | nil =>
    intro s hs
    exact ⟨s, [], rfl, hs, rfl, by simp⟩
  | cons i rest ih =>
    intro s hs
    obtain ⟨t, b, hfi, ht⟩ := hf i s (by simp) hs
    obtain ⟨t2, m, hmap, ht2, hkeys, hvals⟩ :=
      ih (fun j s' hj => hf j s' (by simp [hj])) t ht
    refine ⟨t2, (i, b) :: m, ?_, ht2, by simp [hkeys], ?_⟩
    · unfold mapOutlets
      simp only [hfi, hmap]
    · intro q hq
      rcases List.mem_cons.1 hq with hq | hq
      · subst hq
        exact ⟨s, t, hfi⟩
      · exact hvals q hq

/-- A public operation given `'all'` takes the fan-out branch over the
device's outlet tuple. -/
theorem dispatch_all (f : PyVal → BusState → BusState × Except PyError Bool)
    (d : OutletDevice) (s : BusState) (p : List Nat × String)
    (hl : DEVICE_TYPES.lookup d.idProduct = some p) :
    dispatch f d (.str "all") s =
      ((mapOutlets f p.1 s).1,
       match (mapOutlets f p.1 s).2 with
       | .error e => .error e
       | .ok m => .ok (.all m)) := by
  have hany : (p.1.any fun o => pyEq (.str "all") (.int (o : Int))) = false := by
    rw [List.any_eq_false]
    intro o ho
    exact fun h => Bool.false_ne_true h
  unfold dispatch OutletDevice.outlets
  simp only [hl]
  rw [if_neg (by rw [hany]; exact Bool.false_ne_true), if_pos (by rfl)]
  rcases hm : mapOutlets f p.1 s with ⟨s1, r1⟩
  cases r1 <;> rfl

/-- C6: each public operation given `'all'` processes every outlet of the
device's fixed tuple independently and in order, returning a mapping keyed
exactly by that tuple, each value being that outlet's own sub-operation
result; for `status('all')` the result is exactly the per-outlet decoded
reply of consecutive oracle slots.  A `false` (failure) value for one outlet
does not stop the others (the mapping is always total under a good oracle). -/
theorem c6_all_fanout (d : OutletDevice) (s : BusState) (p : List Nat × String)
    (hl : DEVICE_TYPES.lookup d.idProduct = some p) (hg : GoodOracle s) :
    OutletDevice.status d (.str "all") s =
      (postDispose d
        { s with
            transferCount := s.transferCount + p.1.length,
            log := s.log ++ p.1.map readEvent },
       .ok (.all (expectedEntries p.1 s.transferCount s))) ∧
    (expectedEntries p.1 s.transferCount s).map Prod.fst = p.1 ∧
    (∃ m, (OutletDevice.on d (.str "all") s).2 = .ok (.all m) ∧
      m.map Prod.fst = p.1 ∧
      ∀ q ∈ m, ∃ t1 t2, _on (.int (q.1 : Int)) t1 = (t2, .ok q.2)) ∧
    (∃ m, (OutletDevice.off d (.str "all") s).2 = .ok (.all m) ∧
      m.map Prod.fst = p.1 ∧
      ∀ q ∈ m, ∃ t1 t2, _off (.int (q.1 : Int)) t1 = (t2, .ok q.2)) ∧
    (∃ m, (OutletDevice.toggle d (.str "all") s).2 = .ok (.all m) ∧
      m.map Prod.fst = p.1 ∧
      ∀ q ∈ m, ∃ t1 t2, toggle_one (.int (q.1 : Int)) t1 = (t2, .ok q.2)) := by
  have hos : ∀ i ∈ p.1, i * 3 < 256 := by
    intro i hi
    have := outlets_bound d.idProduct p i hl hi
    omega
  refine ⟨?_, expectedEntries_keys p.1 s.transferCount s, ?_, ?_, ?_⟩
  · have hmap := mapOutlets_status p.1 s hos hg
    have hd := dispatch_all _status d s p hl
    rw [hmap] at hd
    exact wrap_of_body d _ s _ _ hd
  · obtain ⟨t, m, hmap, _, hkeys, hvals⟩ := mapOutlets_ok _on s.transferOutcome
      p.1
      (fun i s' hi hs' => by
        obtain ⟨t, b, h, ht⟩ := on_good i (hos i hi) s'
          (goodOracle_of_eq s s' hs' hg)
        exact ⟨t, b, h, ht.trans hs'⟩)
      s rfl
    have hd := dispatch_all _on d s p hl
    rw [hmap] at hd
    refine ⟨m, ?_, hkeys, hvals⟩
    rw [show (OutletDevice.on d (.str "all") s).2 =
        (dispatch _on d (.str "all") s).2 from
      (autodispose_wrap_spec d (dispatch _on d (.str "all")) s).1, hd]
  · obtain ⟨t, m, hmap, _, hkeys, hvals⟩ := mapOutlets_ok _off s.transferOutcome
      p.1
      (fun i s' hi hs' => by
        obtain ⟨t, b, h, ht⟩ := off_good i (hos i hi) s'
          (goodOracle_of_eq s s' hs' hg)
        exact ⟨t, b, h, ht.trans hs'⟩)
      s rfl
    have hd := dispatch_all _off d s p hl
    rw [hmap] at hd
    refine ⟨m, ?_, hkeys, hvals⟩
    rw [show (OutletDevice.off d (.str "all") s).2 =
        (dispatch _off d (.str "all") s).2 from
      (autodispose_wrap_spec d (dispatch _off d (.str "all")) s).1, hd]
  · obtain ⟨t, m, hmap, _, hkeys, hvals⟩ := mapOutlets_ok toggle_one
      s.transferOutcome p.1
      (fun i s' hi hs' => by
        obtain ⟨t, b, h, ht⟩ := toggle_good i (hos i hi) s'
          (goodOracle_of_eq s s' hs' hg)
        exact ⟨t, b, h, ht.trans hs'⟩)
      s rfl
    have hd := dispatch_all toggle_one d s p hl
    rw [hmap] at hd
    refine ⟨m, ?_, hkeys, hvals⟩
    rw [show (OutletDevice.toggle d (.str "all") s).2 =
        (dispatch toggle_one d (.str "all") s).2 from
      (autodispose_wrap_spec d (dispatch toggle_one d (.str "all")) s).1, hd]

/-- Witness for C6: `status('all')` on a live 4-socket device reads each of
the four outlets once, in order. -/
theorem c6_witness :
    GoodOracle busOnline ∧
    OutletDevice.status devSis (.str "all") busOnline =
      (postDispose devSis
        { busOnline with
            transferCount := busOnline.transferCount + ([1, 2, 3, 4] : List Nat).length,
            log := busOnline.log ++ ([1, 2, 3, 4] : List Nat).map readEvent },
       .ok (.all (expectedEntries [1, 2, 3, 4] busOnline.transferCount busOnline))) ∧
    (expectedEntries [1, 2, 3, 4] busOnline.transferCount busOnline).map
      Prod.fst = [1, 2, 3, 4] := by
  have hg : GoodOracle busOnline := fun j => ⟨[0, 1, 0, 0, 0, 0], 1, rfl, rfl⟩
  have h := c6_all_fanout devSis busOnline ([1, 2, 3, 4], "4-socket SiS-PM") rfl hg
  exact ⟨hg, h.1, h.2.1⟩

/-! Serial formatting (C7). -/

set_option maxHeartbeats 1000000 in
/-- Each byte value formats (`hex(b)[2:].zfill(2)`) to exactly two lowercase
hex digits, agreeing with the spec-side rendering. -/
theorem byteHex_spec : ∀ b : Nat, b < 256 → zfill 2 (natHex b) = specByteHex b := by
  decide

theorem formatSerial_spec (bs : List Nat) (hb : ∀ b ∈ bs, b < 256) :
    formatSerial bs = String.intercalate ":" (bs.map specByteHex) := by
  unfold formatSerial
  rw [List.map_congr_left fun b h => byteHex_spec b (hb b h)]

/-- C7: the serial accessor renders the 6 raw bytes as colon-separated
two-digit lowercase hex; in particular the spec's example bytes give
`"1a:02:ff:00:0b:9c"`. -/
theorem c7_serial_format (d : OutletDevice) (s : BusState) (bs : List Nat)
    (hr : s.transferOutcome s.transferCount = .ok bs)
    (hb : ∀ b ∈ bs, b < 256) :
    (OutletDevice.serial d s).2 =
      .ok (String.intercalate ":" (bs.map specByteHex)) ∧
    formatSerial [0x1A, 0x02, 0xFF, 0x00, 0x0B, 0x9C] = "1a:02:ff:00:0b:9c" := by
  constructor
  · rw [serial_first d s bs hr]
    show Except.ok (formatSerial bs) = _
    rw [formatSerial_spec bs hb]
  · rfl

/-- Witness for C7 on the spec's example bytes. -/
theorem c7_witness :
    (OutletDevice.serial devSis busSerial).2 = .ok "1a:02:ff:00:0b:9c" := by
  have h := (c7_serial_format devSis busSerial
    [0x1A, 0x02, 0xFF, 0x00, 0x0B, 0x9C] rfl (by decide)).1
  rw [h]
  rfl

/-! Find by serial (C8). -/

theorem find_loop_spec (target : String) :
    ∀ ds : List RawDevice,
    (∀ r ∈ ds, ∃ str,
      (OutletDevice.serial (mkOutletDevice r) r.usb).2 = .ok str) →
    get_device_by_serial_loop target ds = .ok (ds.find? (serialMatches target)) := by
  intro ds
  induction ds with
  | nil => intro _; rfl
  | cons r rest ih =>
    intro h
    obtain ⟨str, hstr⟩ := h r (by simp)
    have hmatch : serialMatches target r = (str == target) := by
      unfold serialMatches
      rw [hstr]
    unfold get_device_by_serial_loop
    simp only [hstr]
    by_cases heq : str = target
    · rw [if_pos heq, List.find?_cons_of_pos _ (by rw [hmatch, heq]; simp)]
    · rw [if_neg heq, List.find?_cons_of_neg _ (by
        rw [hmatch]
        simpa using heq),
        ih (fun r' hr' => h r' (by simp [hr']))]

/-- C8: `get_device_by_serial` scans the enumeration in order and returns
the first device whose read serial equals the target exactly; when no
device matches it returns `None` (inside a normal result, not an error). -/
theorem c8_find_by_serial (world : List RawDevice) (products : List Nat)
    (target : String)
    (h : ∀ r ∈ get_devices world products, ∃ str,
      (OutletDevice.serial (mkOutletDevice r) r.usb).2 = .ok str) :
    get_device_by_serial world target products =
      .ok ((get_devices world products).find? (serialMatches target)) := by
  unfold get_device_by_serial
  exact find_loop_spec target (get_devices world products) h

/-- Witness for C8 on a two-device bus: the second device matches, an
unmatched target yields `None`. -/
theorem c8_witness :
    get_device_by_serial worldW "1a:02:ff:00:0b:9c" DEFAULT_PRODUCTS =
      .ok ((get_devices worldW DEFAULT_PRODUCTS).find?
        (serialMatches "1a:02:ff:00:0b:9c")) ∧
    (get_devices worldW DEFAULT_PRODUCTS).find?
        (serialMatches "1a:02:ff:00:0b:9c") =
      some (rawSis 2 [0x1A, 0x02, 0xFF, 0x00, 0x0B, 0x9C]) ∧
    get_device_by_serial worldW "zz" DEFAULT_PRODUCTS = .ok none := by
  have hall : ∀ r ∈ get_devices worldW DEFAULT_PRODUCTS, ∃ str,
      (OutletDevice.serial (mkOutletDevice r) r.usb).2 = .ok str := by
    intro r hr
    rcases List.mem_cons.1 hr with h1 | h1
    · exact ⟨"01:02:03:04:05:06", by rw [h1]; rfl⟩
    · rcases List.mem_cons.1 h1 with h2 | h2
      · exact ⟨"1a:02:ff:00:0b:9c", by rw [h2]; rfl⟩
      · exact absurd h2 (List.not_mem_nil r)
  refine ⟨c8_find_by_serial worldW DEFAULT_PRODUCTS "1a:02:ff:00:0b:9c" hall,
    rfl, ?_⟩
  rw [c8_find_by_serial worldW DEFAULT_PRODUCTS "zz" hall]
  rfl

end Sispm
